import Mathlib

/-!
Verification of the Immersve funding Master contract (TealScript, Algorand).

The development shallowly embeds the current two-phase Master contract
(the `Master` class extending `Ownable, Pausable`): its box maps,
local-state maps and global keys become an explicit `MasterState` record,
every public method becomes a function
`Ctx → MasterState → args → Except Err OpResult`, where `OpResult` carries
the post-state together with the inner transactions (payments and asset
transfers) and the logged events the method produces.  An assertion failure
anywhere aborts the whole transaction, which the `Except.error` branch models:
no new state is produced, so the pre-state persists unchanged.

Modelling conventions, stated once here:
* Addresses, asset ids, timestamps and uint64 counters are `Nat`.  TEAL
  uint64 arithmetic errors on overflow rather than wrapping; the nonces and
  counters in this contract start at 0 and move by 1 per accepted
  transaction, so they never approach 2^64 and `Nat` arithmetic coincides
  with the on-chain arithmetic on every reachable state.
* Box maps and local-state maps are association lists with a recursive
  lookup/insert/erase discipline (`lookupA`, `insertA`, `eraseA`); keys are
  duplicate-free along every execution, which the well-formedness predicate
  tracks explicitly.
* `sha256` of the ABI encoding of the (partnerChannel, owner) pair — the key
  of the `partnerCardFundOwner` secondary index — is collision resistant, so
  the digest is modelled injectively as the pair itself.
* `sha256` of the ABI encoding of an `ApprovedWithdrawalRequest` is likewise
  modelled injectively, and a 64-byte `ed25519` signature is modelled as the
  idealized unforgeable signature value: it records the unique digest and
  public key against which `ed25519VerifyBare` accepts it.
* The role mixins `Ownable` / `Pausable` are imported by the contract but
  their sources are not part of this snapshot; `onlyOwner`, `isOwner` and
  `whenNotPaused` are modelled from the spec as an owner-address equality
  test and a boolean pause gate.
-/

/-- An Algorand account address (32 bytes on chain). -/
abbrev Addr := Nat

/-- An Algorand asset id (uint64 on chain). -/
abbrev AssetID := Nat

namespace FundingMaster

/-- First binding for a key in an association list. -/
def lookupA {α β : Type} [DecidableEq α] : List (α × β) → α → Option β
  | [], _ => none
  | (k, v) :: rest, k₀ => if k = k₀ then some v else lookupA rest k₀

/-- Remove every binding for a key. -/
def eraseA {α β : Type} [DecidableEq α] : List (α × β) → α → List (α × β)
  | [], _ => []
  | (k, v) :: rest, k₀ => if k = k₀ then eraseA rest k₀ else (k, v) :: eraseA rest k₀

/-- Bind a key to a value, replacing any previous binding. -/
def insertA {α β : Type} [DecidableEq α] (m : List (α × β)) (k : α) (v : β) :
    List (α × β) :=
  (k, v) :: eraseA m k

/-- The keys of an association list, in order. -/
def keysA {α β : Type} (m : List (α × β)) : List α := m.map Prod.fst

/-- Duplicate-freedom of the keys of an association list. -/
abbrev NodupKeys {α β : Type} (m : List (α × β)) : Prop := (keysA m).Nodup


/-- In-progress card fund (`CardFundSetup`), held in the initiator's local state. -/
structure CardFundSetup where
  partnerChannel : Addr
  reference : String
deriving DecidableEq, Repr

/-- In-progress partner channel (`PartnerChannelSetup`). -/
structure PartnerChannelSetup where
  partnerChannelName : String
deriving DecidableEq, Repr

/-- Active card fund record (`CardFundData`), stored in the `cardFunds` box map. -/
structure CardFundData where
  partnerChannel : Addr
  owner : Addr
  address : Addr
  paymentNonce : Nat
  withdrawalNonce : Nat
  reference : String
deriving DecidableEq, Repr

/-- Active partner channel record (`PartnerChannelData`). -/
structure PartnerChannelData where
  partnerChannelName : String
  owner : Addr
  address : Addr
deriving DecidableEq, Repr

/-- Stored permissionless withdrawal request (`PermissionlessWithdrawalRequest`). -/
structure PermissionlessWithdrawalRequest where
  cardFund : Addr
  asset : AssetID
  amount : Nat
  createdAt : Nat
  nonce : Nat
deriving DecidableEq, Repr

/-- The approved-withdrawal message (`ApprovedWithdrawalRequest`): never stored,
signed out of band by the settler and presented at call time. -/
structure ApprovedWithdrawalRequest where
  cardFund : Addr
  recipient : Addr
  asset : AssetID
  amount : Nat
  expiresAt : Nat
  nonce : Nat
  genesisHash : Nat
deriving DecidableEq, Repr

/-- `sha256(rawBytes(withdrawal))` over the canonical ABI encoding of an
approved-withdrawal tuple.  sha256 is collision resistant, so the digest is
modelled injectively: distinct tuples give distinct digests. -/
def sha256AWR (w : ApprovedWithdrawalRequest) : ApprovedWithdrawalRequest := w

/-- A 64-byte ed25519 signature value, idealized: an unforgeable signature
determines the unique digest and public key against which it verifies. -/
structure Bytes64 where
  signedDigest : ApprovedWithdrawalRequest
  signedBy : Addr
deriving DecidableEq, Repr

/-- `ed25519VerifyBare(digest, signature, publicKey)`: accepts exactly when the
signature was produced over this digest by the holder of this key. -/
def ed25519VerifyBare (digest : ApprovedWithdrawalRequest) (signature : Bytes64)
    (publicKey : Addr) : Bool :=
  decide (signature.signedDigest = digest ∧ signature.signedBy = publicKey)

/-- `sha256(rawBytes({partnerChannel, cardFundOwner}))`, the key of the
`partnerCardFundOwner` secondary index.  sha256 of the fixed-width ABI
encoding of the address pair is collision resistant, so the digest is
modelled injectively as the pair itself. -/
def partnerCardFundOwnerKey (partnerChannel cardFundOwner : Addr) : Addr × Addr :=
  (partnerChannel, cardFundOwner)

/-- `const MaxPartnerChannelNameLength = 32`. -/
def MaxPartnerChannelNameLength : Nat := 32

/-- `const MaxCardFundReferenceLength = 62`. -/
def MaxCardFundReferenceLength : Nat := 62

/-- `const WithdrawalTypeApproved = 'approved'`. -/
def WithdrawalTypeApproved : String := "approved"

/-- `const WithdrawalTypePermissionLess = 'permissionless'`. -/
def WithdrawalTypePermissionLess : String := "permissionless"

/-- Symbolic tags of the assertion failures the contract can raise.  An assert
failure aborts the whole transaction, leaving every piece of state unchanged. -/
inductive Err where
  | SENDER_NOT_ALLOWED
  | CARD_FUND_NOT_FOUND
  | PARTNER_CHANNEL_NOT_FOUND
  | CARD_FUND_ALREADY_EXISTS
  | CARD_FUND_REFERENCE_TOO_LONG
  | PARTNER_CHANNEL_NAME_TOO_LONG
  | NONCE_INVALID
  | WITHDRAWAL_REQUEST_NOT_FOUND
  | WITHDRAWAL_TIME_INVALID
  | AMOUNT_INVALID
  | INSUFFICIENT_BALANCE
  | SIGNATURE_INVALID
  | SETTLEMENT_ADDRESS_NOT_FOUND
  | INVALID_PARTNER_ADDRESS
  | INVALID_CARD_ADDRESS
  | ASSET_NOT_OPTED_IN
  | ASSET_ALREADY_OPTED_IN
  | PAYMENT_INVALID
  | CONTRACT_PAUSED
  | CARDFUNDS_STILL_ACTIVE
  | PARTNERCHANNELS_STILL_ACTIVE
deriving DecidableEq, Repr

/-- The Master contract's persistent state: its box maps, the callers' local
state maps, and its global state keys, together with the role state of the
`Ownable` / `Pausable` mixins and the set of assets the application account
itself has opted into. -/
structure MasterState where
  /-- `cardFundsSetup` local-state map, keyed by (initiator, card fund address). -/
  cardFundsSetup : List ((Addr × Addr) × CardFundSetup)
  /-- `cardFunds` box map, keyed by card fund address. -/
  cardFunds : List (Addr × CardFundData)
  /-- `cardFundsActiveCount` global key. -/
  cardFundsActiveCount : Nat
  /-- `partnerChannelsSetup` local-state map, keyed by (initiator, channel address). -/
  partnerChannelsSetup : List ((Addr × Addr) × PartnerChannelSetup)
  /-- `partnerChannels` box map, keyed by partner channel address. -/
  partnerChannels : List (Addr × PartnerChannelData)
  /-- `partnerCardFundOwner` secondary index box map; the sha256 key is modelled
  as the (partnerChannel, owner) pair (see `partnerCardFundOwnerKey`). -/
  partnerCardFundOwner : List ((Addr × Addr) × Addr)
  /-- `partnerChannelsActiveCount` global key. -/
  partnerChannelsActiveCount : Nat
  /-- `withdrawalWaitTime` global key (seconds). -/
  withdrawalWaitTime : Nat
  /-- `withdrawals` local-state map, keyed by (owner, card fund address). -/
  withdrawals : List ((Addr × Addr) × PermissionlessWithdrawalRequest)
  /-- `settlementNonce` global key. -/
  settlementNonce : Nat
  /-- `settlementAddress` box map, keyed by asset id. -/
  settlementAddress : List (AssetID × Addr)
  /-- `settlerRoleAddress` global key. -/
  settlerRoleAddress : Addr
  /-- Owner address of the `Ownable` mixin (modelled from the spec: the role
  mixin sources are not part of this snapshot). -/
  ownerAddr : Addr
  /-- Pause flag of the `Pausable` mixin (modelled from the spec). -/
  paused : Bool
  /-- Assets the application's own account is opted into (chain-level state
  driven by `assetAllowlistAdd` / `assetAllowlistRemove`). -/
  optedInAssets : List AssetID
deriving DecidableEq, Repr

/-- Chain-level context of one application call: the transaction sender, the
globals the contract reads, and the read-only views of foreign account state. -/
structure Ctx where
  /-- `this.txn.sender`. -/
  sender : Addr
  /-- `globals.latestTimestamp`. -/
  timestamp : Nat
  /-- `globals.genesisHash`. -/
  genesisHash : Nat
  /-- `this.app.address` (= `globals.currentApplicationAddress`). -/
  appAddr : Addr
  /-- `globals.minBalance`. -/
  minBalance : Nat
  /-- `globals.assetOptInMinBalance`. -/
  assetOptInMinBalance : Nat
  /-- `addr.assetBalance(asset)`: on-chain asset balances of foreign accounts. -/
  assetBalance : Addr → AssetID → Nat
  /-- `addr.authAddr`: the rekey target of an account. -/
  authAddr : Addr → Addr
  /-- The fresh account address the `ControlledAddress` factory returns for
  this call (the chain guarantees a newly created application account). -/
  freshAddr : Addr

/-- An attached payment transaction, as checked by `verifyPayTxn`. -/
structure PayTxn where
  receiver : Addr
  amount : Nat
deriving DecidableEq, Repr

/-- One inner transaction issued by an operation. -/
inductive Transfer where
  /-- `sendAssetTransfer` of `amount` of `asset`, with an optional note. -/
  | assetTransfer (sender receiver : Addr) (asset : AssetID) (amount : Nat) (note : String)
  /-- `sendAssetTransfer` with `assetCloseTo` (asset opt-out). -/
  | assetClose (sender receiver closeTo : Addr) (asset : AssetID)
  /-- `sendPayment` of `amount` microalgos. -/
  | payment (sender receiver : Addr) (amount : Nat)
  /-- `sendPayment` with `closeRemainderTo` (account close-out). -/
  | paymentClose (sender receiver closeTo : Addr) (amount : Nat)
deriving DecidableEq, Repr

/-- One logged event. -/
inductive Event where
  | PartnerChannelCreated (partnerChannel : Addr) (partnerChannelName : String)
  | PartnerChannelClosed (partnerChannel : Addr) (partnerChannelName : String)
  | CardFundCreated (cardFundOwner cardFund partnerChannel : Addr) (reference : String)
  | CardFundClosed (cardFundOwner cardFund partnerChannel : Addr) (reference : String)
  | CardFundAssetEnabled (cardFund : Addr) (asset : AssetID)
  | CardFundAssetDisabled (cardFund : Addr) (asset : AssetID)
  | AssetAllowlistAdded (asset : AssetID)
  | AssetAllowlistRemoved (asset : AssetID)
  | Debit (card : Addr) (asset : AssetID) (amount nonce : Nat) (reference : String)
  | Refund (card : Addr) (asset : AssetID) (amount nonce : Nat) (reference : String)
  | SettlementAddressChanged (oldSettlementAddress newSettlementAddress : Addr)
  | Settlement (recipient : Addr) (asset : AssetID) (amount nonce : Nat)
  | WithdrawalRequest (cardFund recipient : Addr) (asset : AssetID)
      (amount createdAt nonce : Nat)
  | WithdrawalRequestCancelled (cardFund recipient : Addr) (asset : AssetID)
      (amount createdAt nonce : Nat)
  | Withdrawal (cardFund recipient : Addr) (asset : AssetID)
      (amount createdAt expiresAt nonce : Nat) (type : String)
deriving DecidableEq, Repr

/-- The observable outcome of a successful operation: the post-state, the inner
transactions issued, and the events logged, in program order. -/
structure OpResult where
  state : MasterState
  transfers : List Transfer
  events : List Event
deriving DecidableEq, Repr

/-- `getPartnerChannelBoxMbr(partnerChannelName)`:
`2500 + 400 * ((Prefix + Address) + (ABIHead + Address + Address + (ABI encoded partnerChannelName)))`. -/
def getPartnerChannelBoxMbr (partnerChannelName : String) : Nat :=
  2500 + 400 * ((2 + 32) + (2 + 32 + 32 + (2 + partnerChannelName.length)))

/-- `getCardFundBoxMbr(reference)`: card-fund data box cost plus
partner-card-fund-owner index box cost. -/
def getCardFundBoxMbr (reference : String) : Nat :=
  let cardFundDataBoxCost :=
    2500 + 400 * ((2 + 32) + (32 + 32 + 32 + 8 + 8 + (2 + (2 + reference.length))))
  let partnerCardFundOwnerBoxCost := 2500 + 400 * (2 + 32 + 32)
  cardFundDataBoxCost + partnerCardFundOwnerBoxCost

/-- `getAssetAllowlistMbr()`. -/
def getAssetAllowlistMbr (ctx : Ctx) : Nat :=
  ctx.assetOptInMinBalance + (2500 + 400 * (2 + 8 + 32))

/-- `getCardFundAssetMbr()`. -/
def getCardFundAssetMbr (ctx : Ctx) : Nat := ctx.assetOptInMinBalance

/-- `partnerChannelDeployInit(mbr, partnerChannelName)`. -/
def partnerChannelDeployInit (ctx : Ctx) (s : MasterState) (mbr : PayTxn)
    (partnerChannelName : String) : Except Err OpResult :=
  if mbr.receiver = ctx.appAddr ∧ mbr.amount = ctx.minBalance then
    let partnerChannelAddr := ctx.freshAddr
    if partnerChannelName.length ≤ MaxPartnerChannelNameLength then
      let setups := insertA s.partnerChannelsSetup (ctx.sender, partnerChannelAddr) { partnerChannelName := partnerChannelName }
      let s₂ := { s with partnerChannelsSetup := setups }
      .ok { state := s₂, transfers := [.payment ctx.appAddr partnerChannelAddr ctx.minBalance], events := [] }
    else .error .PARTNER_CHANNEL_NAME_TOO_LONG
  else .error .PAYMENT_INVALID

/-- `partnerChannelDeployComplete(mbr, partnerChannelAddr)`. -/
def partnerChannelDeployComplete (ctx : Ctx) (s : MasterState) (mbr : PayTxn)
    (partnerChannelAddr : Addr) : Except Err OpResult :=
  match lookupA s.partnerChannelsSetup (ctx.sender, partnerChannelAddr) with
  | none => .error .PARTNER_CHANNEL_NOT_FOUND
  | some setup =>
    if mbr.receiver = ctx.appAddr ∧ mbr.amount = getPartnerChannelBoxMbr setup.partnerChannelName then
      if ctx.authAddr partnerChannelAddr = ctx.appAddr then
        let partnerChannelData : PartnerChannelData := { partnerChannelName := setup.partnerChannelName, owner := ctx.sender, address := partnerChannelAddr }
        let channels := insertA s.partnerChannels partnerChannelAddr partnerChannelData
        let setups := eraseA s.partnerChannelsSetup (ctx.sender, partnerChannelAddr)
        let s₂ := { s with partnerChannels := channels, partnerChannelsSetup := setups, partnerChannelsActiveCount := s.partnerChannelsActiveCount + 1 }
        .ok { state := s₂, transfers := [], events := [.PartnerChannelCreated partnerChannelAddr setup.partnerChannelName] }
      else .error .INVALID_PARTNER_ADDRESS
    else .error .PAYMENT_INVALID

/-- `partnerChannelClose(partnerChannel)`. -/
def partnerChannelClose (ctx : Ctx) (s : MasterState) (partnerChannel : Addr) :
    Except Err OpResult :=
  match lookupA s.partnerChannels partnerChannel with
  | none => .error .PARTNER_CHANNEL_NOT_FOUND
  | some partnerChannelData =>
    if partnerChannelData.owner = ctx.sender then
      let boxCost := getPartnerChannelBoxMbr partnerChannelData.partnerChannelName
      let s₂ := { s with partnerChannels := eraseA s.partnerChannels partnerChannel, partnerChannelsActiveCount := s.partnerChannelsActiveCount - 1 }
      let ts : List Transfer := [.paymentClose partnerChannel partnerChannel ctx.sender 0, .payment ctx.appAddr ctx.sender boxCost]
      .ok { state := s₂, transfers := ts, events := [.PartnerChannelClosed partnerChannel partnerChannelData.partnerChannelName] }
    else .error .SENDER_NOT_ALLOWED

/-- `cardFundDeployInit(accountMbr, partnerChannel, asset, reference)`. -/
def cardFundDeployInit (ctx : Ctx) (s : MasterState) (accountMbr : PayTxn)
    (partnerChannel : Addr) (asset : AssetID) (reference : String) :
    Except Err OpResult :=
  if (lookupA s.partnerChannels partnerChannel).isSome then
    if reference.length ≤ MaxCardFundReferenceLength then
      if (lookupA s.partnerCardFundOwner (partnerCardFundOwnerKey partnerChannel ctx.sender)).isSome then
        .error .CARD_FUND_ALREADY_EXISTS
      else
        let assetMbr := if asset ≠ 0 then ctx.assetOptInMinBalance else 0
        if accountMbr.receiver = ctx.appAddr ∧ accountMbr.amount = ctx.minBalance + assetMbr then
          let cardFundAddr := ctx.freshAddr
          let setup : CardFundSetup := { partnerChannel := partnerChannel, reference := reference }
          let setups := insertA s.cardFundsSetup (ctx.sender, cardFundAddr) setup
          let fund : Transfer := .payment ctx.appAddr cardFundAddr (ctx.minBalance + assetMbr)
          let s₂ := { s with cardFundsSetup := setups }
          if asset ≠ 0 then
            -- cardFundAssetOptIn: only proceeds if the master allowlist accepts the asset
            if asset ∈ s.optedInAssets then
              .ok { state := s₂, transfers := [fund, .assetTransfer cardFundAddr cardFundAddr asset 0 ""], events := [.CardFundAssetEnabled cardFundAddr asset] }
            else .error .ASSET_NOT_OPTED_IN
          else
            .ok { state := s₂, transfers := [fund], events := [] }
        else .error .PAYMENT_INVALID
    else .error .CARD_FUND_REFERENCE_TOO_LONG
  else .error .PARTNER_CHANNEL_NOT_FOUND

/-- `cardFundDeployComplete(boxMbr, cardFundAddr)`. -/
def cardFundDeployComplete (ctx : Ctx) (s : MasterState) (boxMbr : PayTxn)
    (cardFundAddr : Addr) : Except Err OpResult :=
  match lookupA s.cardFundsSetup (ctx.sender, cardFundAddr) with
  | none => .error .CARD_FUND_NOT_FOUND
  | some cardFundSetup =>
    -- mandatory re-check of the uniqueness index
    if (lookupA s.partnerCardFundOwner (partnerCardFundOwnerKey cardFundSetup.partnerChannel ctx.sender)).isSome then
      .error .CARD_FUND_ALREADY_EXISTS
    else if boxMbr.receiver = ctx.appAddr ∧ boxMbr.amount = getCardFundBoxMbr cardFundSetup.reference then
      if ctx.authAddr cardFundAddr = ctx.appAddr then
        let cardFundData : CardFundData := { partnerChannel := cardFundSetup.partnerChannel, reference := cardFundSetup.reference, owner := ctx.sender, address := cardFundAddr, paymentNonce := 0, withdrawalNonce := 0 }
        let funds := insertA s.cardFunds cardFundAddr cardFundData
        let index := insertA s.partnerCardFundOwner (partnerCardFundOwnerKey cardFundSetup.partnerChannel ctx.sender) cardFundAddr
        let setups := eraseA s.cardFundsSetup (ctx.sender, cardFundAddr)
        let s₂ := { s with cardFunds := funds, cardFundsActiveCount := s.cardFundsActiveCount + 1, partnerCardFundOwner := index, cardFundsSetup := setups }
        .ok { state := s₂, transfers := [], events := [.CardFundCreated ctx.sender cardFundAddr cardFundSetup.partnerChannel cardFundSetup.reference] }
      else .error .INVALID_CARD_ADDRESS
    else .error .PAYMENT_INVALID

/-- `cardFundClose(cardFund)`.  The guard inlines `isCardFundOwner`, which first
asserts that the card fund exists. -/
def cardFundClose (ctx : Ctx) (s : MasterState) (cardFund : Addr) :
    Except Err OpResult :=
  match lookupA s.cardFunds cardFund with
  | none => .error .CARD_FUND_NOT_FOUND
  | some cardFundData =>
    if cardFundData.owner = ctx.sender then
      let index := eraseA s.partnerCardFundOwner (partnerCardFundOwnerKey cardFundData.partnerChannel cardFundData.owner)
      let s₂ := { s with cardFunds := eraseA s.cardFunds cardFund, cardFundsActiveCount := s.cardFundsActiveCount - 1, partnerCardFundOwner := index }
      let ts : List Transfer := [.paymentClose cardFund cardFund ctx.sender 0, .payment ctx.appAddr ctx.sender (getCardFundBoxMbr cardFundData.reference)]
      .ok { state := s₂, transfers := ts, events := [.CardFundClosed cardFundData.owner cardFund cardFundData.partnerChannel cardFundData.reference] }
    else .error .SENDER_NOT_ALLOWED

/-- `assetAllowlistAdd(mbr, asset, settlementAddress)` (owner only). -/
def assetAllowlistAdd (ctx : Ctx) (s : MasterState) (mbr : PayTxn) (asset : AssetID)
    (newSettlementAddress : Addr) : Except Err OpResult :=
  if ctx.sender = s.ownerAddr then
    if asset ∈ s.optedInAssets then .error .ASSET_ALREADY_OPTED_IN
    else if mbr.receiver = ctx.appAddr ∧ mbr.amount = getAssetAllowlistMbr ctx then
      let oldAddr := match lookupA s.settlementAddress asset with
        | some a => a
        | none => 0
      let s₂ := { s with optedInAssets := asset :: s.optedInAssets, settlementAddress := insertA s.settlementAddress asset newSettlementAddress }
      .ok { state := s₂, transfers := [.assetTransfer ctx.appAddr ctx.appAddr asset 0 ""], events := [.AssetAllowlistAdded asset, .SettlementAddressChanged oldAddr newSettlementAddress] }
    else .error .PAYMENT_INVALID
  else .error .SENDER_NOT_ALLOWED

/-- `assetAllowlistRemove(asset)` (owner only). -/
def assetAllowlistRemove (ctx : Ctx) (s : MasterState) (asset : AssetID) :
    Except Err OpResult :=
  if ctx.sender = s.ownerAddr then
    if asset ∈ s.optedInAssets then
      let s₂ := { s with optedInAssets := s.optedInAssets.erase asset, settlementAddress := eraseA s.settlementAddress asset }
      let ts : List Transfer := [.assetClose ctx.appAddr ctx.appAddr ctx.appAddr asset, .payment ctx.appAddr ctx.sender (getAssetAllowlistMbr ctx)]
      .ok { state := s₂, transfers := ts, events := [.AssetAllowlistRemoved asset] }
    else .error .ASSET_NOT_OPTED_IN
  else .error .SENDER_NOT_ALLOWED

/-- `cardFundDebit(cardFund, asset, amount, nonce, ref)` (settler, not paused). -/
def cardFundDebit (ctx : Ctx) (s : MasterState) (cardFund : Addr) (asset : AssetID)
    (amount nonce : Nat) (ref : String) : Except Err OpResult :=
  if s.paused then .error .CONTRACT_PAUSED
  else if ctx.sender = s.settlerRoleAddress then
    match lookupA s.cardFunds cardFund with
    | none => .error .CARD_FUND_NOT_FOUND
    | some cardFundData =>
      let expectedPaymentNonce := cardFundData.paymentNonce + 1
      if expectedPaymentNonce = nonce then
        let s₂ := { s with cardFunds := insertA s.cardFunds cardFund { cardFundData with paymentNonce := expectedPaymentNonce } }
        .ok { state := s₂, transfers := [.assetTransfer cardFund ctx.appAddr asset amount ref], events := [.Debit cardFund asset amount nonce ref] }
      else .error .NONCE_INVALID
  else .error .SENDER_NOT_ALLOWED

/-- `cardFundRefund(cardFund, asset, amount, nonce, ref)` (settler, not paused). -/
def cardFundRefund (ctx : Ctx) (s : MasterState) (cardFund : Addr) (asset : AssetID)
    (amount nonce : Nat) (ref : String) : Except Err OpResult :=
  if s.paused then .error .CONTRACT_PAUSED
  else if ctx.sender = s.settlerRoleAddress then
    match lookupA s.cardFunds cardFund with
    | none => .error .CARD_FUND_NOT_FOUND
    | some cardFundData =>
      let expectedPaymentNonce := cardFundData.paymentNonce + 1
      if expectedPaymentNonce = nonce then
        let s₂ := { s with cardFunds := insertA s.cardFunds cardFund { cardFundData with paymentNonce := expectedPaymentNonce } }
        .ok { state := s₂, transfers := [.assetTransfer ctx.appAddr cardFund asset amount ref], events := [.Refund cardFund asset amount nonce ref] }
      else .error .NONCE_INVALID
  else .error .SENDER_NOT_ALLOWED

/-- `setWithdrawalTimeout(seconds)` (owner only). -/
def setWithdrawalTimeout (ctx : Ctx) (s : MasterState) (seconds : Nat) :
    Except Err OpResult :=
  if ctx.sender = s.ownerAddr then
    .ok { state := { s with withdrawalWaitTime := seconds }, transfers := [], events := [] }
  else .error .SENDER_NOT_ALLOWED

/-- `setSettlerRole(newSettlerAddress)` (owner only). -/
def setSettlerRole (ctx : Ctx) (s : MasterState) (newSettlerAddress : Addr) :
    Except Err OpResult :=
  if ctx.sender = s.ownerAddr then
    .ok { state := { s with settlerRoleAddress := newSettlerAddress }, transfers := [], events := [] }
  else .error .SENDER_NOT_ALLOWED

/-- `setSettlementAddress(settlementAsset, newSettlementAddress)` (owner only). -/
def setSettlementAddress (ctx : Ctx) (s : MasterState) (settlementAsset : AssetID)
    (newSettlementAddress : Addr) : Except Err OpResult :=
  if ctx.sender = s.ownerAddr then
    let oldAddr := match lookupA s.settlementAddress settlementAsset with
      | some a => a
      | none => 0
    let s₂ := { s with settlementAddress := insertA s.settlementAddress settlementAsset newSettlementAddress }
    .ok { state := s₂, transfers := [], events := [.SettlementAddressChanged oldAddr newSettlementAddress] }
  else .error .SENDER_NOT_ALLOWED

/-- `settle(asset, amount, nonce)` (settler, not paused). -/
def settle (ctx : Ctx) (s : MasterState) (asset : AssetID) (amount nonce : Nat) :
    Except Err OpResult :=
  if s.paused then .error .CONTRACT_PAUSED
  else if ctx.sender = s.settlerRoleAddress then
    let expectedSettlementNonce := s.settlementNonce + 1
    if expectedSettlementNonce = nonce then
      match lookupA s.settlementAddress asset with
      | none => .error .SETTLEMENT_ADDRESS_NOT_FOUND
      | some assetReceiver =>
        let s₂ := { s with settlementNonce := expectedSettlementNonce }
        .ok { state := s₂, transfers := [.assetTransfer ctx.appAddr assetReceiver asset amount ""], events := [.Settlement assetReceiver asset amount nonce] }
    else .error .NONCE_INVALID
  else .error .SENDER_NOT_ALLOWED

/-- `cardFundEnableAsset(mbr, cardFund, asset)` (contract owner or fund owner). -/
def cardFundEnableAsset (ctx : Ctx) (s : MasterState) (mbr : PayTxn)
    (cardFund : Addr) (asset : AssetID) : Except Err OpResult :=
  match lookupA s.cardFunds cardFund with
  | none => .error .CARD_FUND_NOT_FOUND
  | some cardFundData =>
    if ctx.sender = s.ownerAddr ∨ cardFundData.owner = ctx.sender then
      if mbr.receiver = ctx.appAddr ∧ mbr.amount = getCardFundAssetMbr ctx then
        if asset ∈ s.optedInAssets then
          let ts : List Transfer := [.payment ctx.appAddr cardFund (getCardFundAssetMbr ctx), .assetTransfer cardFund cardFund asset 0 ""]
          .ok { state := s, transfers := ts, events := [.CardFundAssetEnabled cardFund asset] }
        else .error .ASSET_NOT_OPTED_IN
      else .error .PAYMENT_INVALID
    else .error .SENDER_NOT_ALLOWED

/-- `cardFundDisableAsset(cardFund, asset)` (contract owner or fund owner). -/
def cardFundDisableAsset (ctx : Ctx) (s : MasterState) (cardFund : Addr)
    (asset : AssetID) : Except Err OpResult :=
  match lookupA s.cardFunds cardFund with
  | none => .error .CARD_FUND_NOT_FOUND
  | some cardFundData =>
    if ctx.sender = s.ownerAddr ∨ cardFundData.owner = ctx.sender then
      let ts : List Transfer := [.assetClose cardFund cardFund cardFund asset, .payment cardFund ctx.sender (getCardFundAssetMbr ctx)]
      .ok { state := s, transfers := ts, events := [.CardFundAssetDisabled cardFund asset] }
    else .error .SENDER_NOT_ALLOWED

/-- Private helper `withdrawFunds`: skips the asset transfer when the amount is
zero, logs the `Withdrawal` event, and advances the fund's `withdrawalNonce` to
the supplied value.  Every caller has already established that the fund exists. -/
def withdrawFunds (ctx : Ctx) (s : MasterState) (cardFund : Addr) (asset : AssetID)
    (amount timestamp nonce : Nat) (withdrawalType : String) : Except Err OpResult :=
  match lookupA s.cardFunds cardFund with
  | none => .error .CARD_FUND_NOT_FOUND
  | some cardFundData =>
    let ts : List Transfer := if amount > 0 then [.assetTransfer cardFund ctx.sender asset amount ""] else []
    let createdAt := if withdrawalType = WithdrawalTypePermissionLess then timestamp else 0
    let expiresAt := if withdrawalType = WithdrawalTypeApproved then timestamp else 0
    let s₂ := { s with cardFunds := insertA s.cardFunds cardFund { cardFundData with withdrawalNonce := nonce } }
    .ok { state := s₂, transfers := ts, events := [.Withdrawal cardFund ctx.sender asset amount createdAt expiresAt nonce withdrawalType] }

/-- `cardFundInitPermissionlessWithdrawal(cardFund, asset, amount)` (fund owner). -/
def cardFundInitPermissionlessWithdrawal (ctx : Ctx) (s : MasterState)
    (cardFund : Addr) (asset : AssetID) (amount : Nat) : Except Err OpResult :=
  match lookupA s.cardFunds cardFund with
  | none => .error .CARD_FUND_NOT_FOUND
  | some cardFundData =>
    if cardFundData.owner = ctx.sender then
      if amount ≤ ctx.assetBalance cardFund asset then
        let withdrawal : PermissionlessWithdrawalRequest := { cardFund := cardFund, asset := asset, amount := amount, createdAt := ctx.timestamp, nonce := cardFundData.withdrawalNonce + 1 }
        let s₂ := { s with withdrawals := insertA s.withdrawals (ctx.sender, cardFund) withdrawal }
        .ok { state := s₂, transfers := [], events := [.WithdrawalRequest cardFund ctx.sender asset amount ctx.timestamp (cardFundData.withdrawalNonce + 1)] }
      else .error .INSUFFICIENT_BALANCE
    else .error .SENDER_NOT_ALLOWED

/-- `cardFundWithdrawalCancel(cardFund)` (fund owner). -/
def cardFundWithdrawalCancel (ctx : Ctx) (s : MasterState) (cardFund : Addr) :
    Except Err OpResult :=
  match lookupA s.cardFunds cardFund with
  | none => .error .CARD_FUND_NOT_FOUND
  | some cardFundData =>
    if cardFundData.owner = ctx.sender then
      match lookupA s.withdrawals (ctx.sender, cardFund) with
      | none => .error .WITHDRAWAL_REQUEST_NOT_FOUND
      | some withdrawalRequest =>
        let s₂ := { s with withdrawals := eraseA s.withdrawals (ctx.sender, cardFund) }
        let ev : Event := .WithdrawalRequestCancelled withdrawalRequest.cardFund ctx.sender withdrawalRequest.asset withdrawalRequest.amount withdrawalRequest.createdAt withdrawalRequest.nonce
        .ok { state := s₂, transfers := [], events := [ev] }
    else .error .SENDER_NOT_ALLOWED

/-- `cardFundExecutePermissionlessWithdrawal(cardFund, amount)` (fund owner). -/
def cardFundExecutePermissionlessWithdrawal (ctx : Ctx) (s : MasterState)
    (cardFund : Addr) (amount : Nat) : Except Err OpResult :=
  match lookupA s.cardFunds cardFund with
  | none => .error .CARD_FUND_NOT_FOUND
  | some cardFundData =>
    if cardFundData.owner = ctx.sender then
      match lookupA s.withdrawals (ctx.sender, cardFund) with
      | none => .error .WITHDRAWAL_REQUEST_NOT_FOUND
      | some withdrawal =>
        if amount ≤ withdrawal.amount then
          if cardFundData.withdrawalNonce + 1 = withdrawal.nonce then
            if withdrawal.createdAt + s.withdrawalWaitTime ≤ ctx.timestamp then
              match withdrawFunds ctx s cardFund withdrawal.asset amount withdrawal.createdAt withdrawal.nonce WithdrawalTypePermissionLess with
              | .error e => .error e
              | .ok r =>
                .ok { r with state := { r.state with withdrawals := eraseA r.state.withdrawals (ctx.sender, cardFund) } }
            else .error .WITHDRAWAL_TIME_INVALID
          else .error .NONCE_INVALID
        else .error .AMOUNT_INVALID
    else .error .SENDER_NOT_ALLOWED

/-- `cardFundExecuteApprovedWithdrawal(cardFund, asset, amount, expiresAt, nonce,
signature)` (fund owner). -/
def cardFundExecuteApprovedWithdrawal (ctx : Ctx) (s : MasterState)
    (cardFund : Addr) (asset : AssetID) (amount expiresAt nonce : Nat)
    (signature : Bytes64) : Except Err OpResult :=
  match lookupA s.cardFunds cardFund with
  | none => .error .CARD_FUND_NOT_FOUND
  | some cardFundData =>
    if cardFundData.owner = ctx.sender then
      if ctx.timestamp < expiresAt then
        if cardFundData.withdrawalNonce + 1 = nonce then
          let withdrawal : ApprovedWithdrawalRequest := { cardFund := cardFund, recipient := ctx.sender, asset := asset, amount := amount, expiresAt := expiresAt, nonce := nonce, genesisHash := ctx.genesisHash }
          if ed25519VerifyBare (sha256AWR withdrawal) signature s.settlerRoleAddress then
            withdrawFunds ctx s cardFund asset amount expiresAt nonce WithdrawalTypeApproved
          else .error .SIGNATURE_INVALID
        else .error .NONCE_INVALID
      else .error .WITHDRAWAL_TIME_INVALID
    else .error .SENDER_NOT_ALLOWED

/-- `destroy()` (owner only, delete-application): requires no active card funds
and no active partner channels, then closes the application account out to the
owner. -/
def destroy (ctx : Ctx) (s : MasterState) : Except Err OpResult :=
  if ctx.sender = s.ownerAddr then
    if s.cardFundsActiveCount = 0 then
      if s.partnerChannelsActiveCount = 0 then
        .ok { state := s, transfers := [.paymentClose ctx.appAddr ctx.appAddr s.ownerAddr 0], events := [] }
      else .error .PARTNERCHANNELS_STILL_ACTIVE
    else .error .CARDFUNDS_STILL_ACTIVE
  else .error .SENDER_NOT_ALLOWED


/-- One invocation of a public Master method, with its arguments. -/
inductive OpCall where
  | partnerChannelDeployInit (mbr : PayTxn) (partnerChannelName : String)
  | partnerChannelDeployComplete (mbr : PayTxn) (partnerChannelAddr : Addr)
  | partnerChannelClose (partnerChannel : Addr)
  | cardFundDeployInit (accountMbr : PayTxn) (partnerChannel : Addr) (asset : AssetID) (reference : String)
  | cardFundDeployComplete (boxMbr : PayTxn) (cardFundAddr : Addr)
  | cardFundClose (cardFund : Addr)
  | assetAllowlistAdd (mbr : PayTxn) (asset : AssetID) (newSettlementAddress : Addr)
  | assetAllowlistRemove (asset : AssetID)
  | cardFundDebit (cardFund : Addr) (asset : AssetID) (amount nonce : Nat) (ref : String)
  | cardFundRefund (cardFund : Addr) (asset : AssetID) (amount nonce : Nat) (ref : String)
  | setWithdrawalTimeout (seconds : Nat)
  | setSettlerRole (newSettlerAddress : Addr)
  | setSettlementAddress (settlementAsset : AssetID) (newSettlementAddress : Addr)
  | settle (asset : AssetID) (amount nonce : Nat)
  | cardFundEnableAsset (mbr : PayTxn) (cardFund : Addr) (asset : AssetID)
  | cardFundDisableAsset (cardFund : Addr) (asset : AssetID)
  | cardFundInitPermissionlessWithdrawal (cardFund : Addr) (asset : AssetID) (amount : Nat)
  | cardFundWithdrawalCancel (cardFund : Addr)
  | cardFundExecutePermissionlessWithdrawal (cardFund : Addr) (amount : Nat)
  | cardFundExecuteApprovedWithdrawal (cardFund : Addr) (asset : AssetID) (amount expiresAt nonce : Nat) (signature : Bytes64)
  | destroy
deriving DecidableEq, Repr

/-- Dispatch one public method call on the Master contract. -/
def applyOp (ctx : Ctx) (s : MasterState) : OpCall → Except Err OpResult
  | .partnerChannelDeployInit mbr name => partnerChannelDeployInit ctx s mbr name
  | .partnerChannelDeployComplete mbr addr => partnerChannelDeployComplete ctx s mbr addr
  | .partnerChannelClose addr => partnerChannelClose ctx s addr
  | .cardFundDeployInit mbr pc asset ref => cardFundDeployInit ctx s mbr pc asset ref
  | .cardFundDeployComplete mbr addr => cardFundDeployComplete ctx s mbr addr
  | .cardFundClose addr => cardFundClose ctx s addr
  | .assetAllowlistAdd mbr asset sa => assetAllowlistAdd ctx s mbr asset sa
  | .assetAllowlistRemove asset => assetAllowlistRemove ctx s asset
  | .cardFundDebit cf asset amount nonce ref => cardFundDebit ctx s cf asset amount nonce ref
  | .cardFundRefund cf asset amount nonce ref => cardFundRefund ctx s cf asset amount nonce ref
  | .setWithdrawalTimeout secs => setWithdrawalTimeout ctx s secs
  | .setSettlerRole a => setSettlerRole ctx s a
  | .setSettlementAddress asset a => setSettlementAddress ctx s asset a
  | .settle asset amount nonce => settle ctx s asset amount nonce
  | .cardFundEnableAsset mbr cf asset => cardFundEnableAsset ctx s mbr cf asset
  | .cardFundDisableAsset cf asset => cardFundDisableAsset ctx s cf asset
  | .cardFundInitPermissionlessWithdrawal cf asset amount => cardFundInitPermissionlessWithdrawal ctx s cf asset amount
  | .cardFundWithdrawalCancel cf => cardFundWithdrawalCancel ctx s cf
  | .cardFundExecutePermissionlessWithdrawal cf amount => cardFundExecutePermissionlessWithdrawal ctx s cf amount
  | .cardFundExecuteApprovedWithdrawal cf asset amount expiresAt nonce sig => cardFundExecuteApprovedWithdrawal ctx s cf asset amount expiresAt nonce sig
  | .destroy => destroy ctx s

/-- Registry well-formedness: the two box maps hold duplicate-free keys and the
two active counters equal the number of entries of the matching map. -/
def CountInv (s : MasterState) : Prop :=
  NodupKeys s.cardFunds ∧ NodupKeys s.partnerChannels ∧
    s.cardFundsActiveCount = s.cardFunds.length ∧
    s.partnerChannelsActiveCount = s.partnerChannels.length

/-- Freshness of factory-created account addresses for the finalize steps: the
chain guarantees the address produced by `ControlledAddress.new` at init time is
a brand-new application account, so the record written at complete time cannot
collide with an existing registry key. -/
def FreshOK (s : MasterState) : OpCall → Prop
  | .partnerChannelDeployComplete _ addr => lookupA s.partnerChannels addr = none
  | .cardFundDeployComplete _ addr => lookupA s.cardFunds addr = none
  | _ => True


/-- A concrete card fund record used by the witnesses: owner 1, under partner
channel 10, living at address 5, both nonces 0. -/
def cf0 : CardFundData :=
  { partnerChannel := 10, owner := 1, address := 5, paymentNonce := 0, withdrawalNonce := 0, reference := "r" }

/-- A concrete partner channel record used by the witnesses. -/
def pc0 : PartnerChannelData := { partnerChannelName := "Acme", owner := 1, address := 10 }

/-- A concrete Master state used by the witnesses: one partner channel (10),
one card fund (5), settler 2, contract owner 3, asset 7 allow-listed with
settlement address 99, wait time 86400 s. -/
def s0 : MasterState :=
  { cardFundsSetup := [], cardFunds := [(5, cf0)], cardFundsActiveCount := 1,
    partnerChannelsSetup := [], partnerChannels := [(10, pc0)],
    partnerCardFundOwner := [((10, 1), 5)], partnerChannelsActiveCount := 1,
    withdrawalWaitTime := 86400, withdrawals := [], settlementNonce := 0,
    settlementAddress := [(7, 99)], settlerRoleAddress := 2, ownerAddr := 3,
    paused := false, optedInAssets := [7] }

/-- A concrete call context used by the witnesses: application address 100,
fresh factory address 50, every account rekeyed to the application, every
balance 1000. -/
def mkCtx (sender timestamp : Nat) : Ctx :=
  { sender := sender, timestamp := timestamp, genesisHash := 42, appAddr := 100,
    minBalance := 100000, assetOptInMinBalance := 100000,
    assetBalance := fun _ _ => 1000, authAddr := fun _ => 100, freshAddr := 50 }


/-- A concrete pending withdrawal request used by the witnesses: 50 units of
asset 7 from fund 5, created at t = 1000, nonce 1. -/
def wr0 : PermissionlessWithdrawalRequest :=
  { cardFund := 5, asset := 7, amount := 50, createdAt := 1000, nonce := 1 }

/-- `s0` with the request `wr0` stored for (owner 1, fund 5). -/
def s1 : MasterState := { s0 with withdrawals := [((1, 5), wr0)] }

/-- The result of executing `wr0` in full (50 units) at t = 87400. -/
def r3 : OpResult :=
  { state := { s1 with cardFunds := insertA s1.cardFunds 5 { cf0 with withdrawalNonce := 1 }, withdrawals := [] },
    transfers := [.assetTransfer 5 1 7 50 ""],
    events := [.Withdrawal 5 1 7 50 1000 0 1 WithdrawalTypePermissionLess] }

/-- The result of executing `wr0` with amount 0 at t = 87400. -/
def r9 : OpResult :=
  { state := { s1 with cardFunds := insertA s1.cardFunds 5 { cf0 with withdrawalNonce := 1 }, withdrawals := [] },
    transfers := [],
    events := [.Withdrawal 5 1 7 0 1000 0 1 WithdrawalTypePermissionLess] }

/-- A concrete approved-withdrawal tuple: 50 units of asset 7 from fund 5 to
owner 1, expiring at t = 5000, nonce 1, on the chain with genesis hash 42. -/
def awr0 : ApprovedWithdrawalRequest :=
  { cardFund := 5, recipient := 1, asset := 7, amount := 50, expiresAt := 5000, nonce := 1, genesisHash := 42 }

/-- A settler signature over (the digest of) `awr0`. -/
def sig0 : Bytes64 := { signedDigest := awr0, signedBy := 2 }


/-- A setup record for a pending card fund at the fresh address 50. -/
def setup10 : CardFundSetup := { partnerChannel := 10, reference := "x" }

/-- `s0` with the pending setup for (initiator 1, address 50) and an empty
secondary index, ready to be finalized. -/
def s2 : MasterState := { s0 with cardFundsSetup := [((1, 50), setup10)], partnerCardFundOwner := [] }

/-- The result of `cardFundDeployComplete` on `s2`. -/
def r10 : OpResult :=
  { state := { s2 with cardFunds := insertA s2.cardFunds 50 { partnerChannel := 10, owner := 1, address := 50, paymentNonce := 0, withdrawalNonce := 0, reference := "x" }, cardFundsActiveCount := 2, partnerCardFundOwner := [((10, 1), 50)], cardFundsSetup := [] },
    transfers := [],
    events := [.CardFundCreated 1 50 10 "x"] }

-- ===== Lemmas about the association-list operations =====

theorem lookupA_insertA_self {α β : Type} [DecidableEq α]
    (m : List (α × β)) (k : α) (v : β) : lookupA (insertA m k v) k = some v := by
  simp [insertA, lookupA]

theorem lookupA_eraseA_self {α β : Type} [DecidableEq α]
    (m : List (α × β)) (k : α) : lookupA (eraseA m k) k = none := by
  induction m with
  | nil => rfl
  | cons p rest ih =>
    obtain ⟨k₁, v₁⟩ := p
    by_cases h₁ : k₁ = k
    · simpa [eraseA, h₁] using ih
    · simpa [eraseA, lookupA, h₁] using ih

theorem lookupA_eraseA_ne {α β : Type} [DecidableEq α]
    (m : List (α × β)) (k k₀ : α) (h : k ≠ k₀) :
    lookupA (eraseA m k) k₀ = lookupA m k₀ := by
  induction m with
  | nil => rfl
  | cons p rest ih =>
    obtain ⟨k₁, v₁⟩ := p
    by_cases h₁ : k₁ = k
    · have h₂ : k₁ ≠ k₀ := by rw [h₁]; exact h
      simp only [eraseA, if_pos h₁, lookupA, if_neg h₂]
      exact ih
    · by_cases h₂ : k₁ = k₀
      · simp only [eraseA, if_neg h₁, lookupA, if_pos h₂]
      · simp only [eraseA, if_neg h₁, lookupA, if_neg h₂]
        exact ih

theorem lookupA_insertA_ne {α β : Type} [DecidableEq α]
    (m : List (α × β)) (k k₀ : α) (v : β) (h : k ≠ k₀) :
    lookupA (insertA m k v) k₀ = lookupA m k₀ := by
  simp only [insertA, lookupA, if_neg h]
  exact lookupA_eraseA_ne m k k₀ h

theorem eraseA_of_lookupA_none {α β : Type} [DecidableEq α]
    (m : List (α × β)) (k : α) (h : lookupA m k = none) : eraseA m k = m := by
  induction m with
  | nil => rfl
  | cons p rest ih =>
    obtain ⟨k₁, v₁⟩ := p
    by_cases h₁ : k₁ = k
    · simp [lookupA, h₁] at h
    · simp only [lookupA, if_neg h₁] at h
      simp [eraseA, h₁, ih h]

theorem lookupA_none_of_not_mem_keysA {α β : Type} [DecidableEq α]
    (m : List (α × β)) (k : α) (h : k ∉ keysA m) : lookupA m k = none := by
  induction m with
  | nil => rfl
  | cons p rest ih =>
    obtain ⟨k₁, v₁⟩ := p
    simp only [keysA, List.map_cons, List.mem_cons, not_or] at h
    have h₁ : k₁ ≠ k := fun hk => h.1 hk.symm
    simp only [lookupA, if_neg h₁]
    exact ih h.2

theorem mem_keysA_of_mem_keysA_eraseA {α β : Type} [DecidableEq α]
    (m : List (α × β)) (k k₀ : α) (h : k₀ ∈ keysA (eraseA m k)) : k₀ ∈ keysA m := by
  induction m with
  | nil => simpa [eraseA] using h
  | cons p rest ih =>
    obtain ⟨k₁, v₁⟩ := p
    by_cases h₁ : k₁ = k
    · simp only [eraseA, if_pos h₁] at h
      simp only [keysA, List.map_cons, List.mem_cons]
      exact Or.inr (ih h)
    · simp only [eraseA, if_neg h₁, keysA, List.map_cons, List.mem_cons] at h ⊢
      rcases h with h | h
      · exact Or.inl h
      · exact Or.inr (ih h)

theorem length_eraseA_of_lookupA_some {α β : Type} [DecidableEq α]
    (m : List (α × β)) (k : α) (v : β) (hnd : NodupKeys m)
    (h : lookupA m k = some v) : (eraseA m k).length + 1 = m.length := by
  induction m with
  | nil => simp [lookupA] at h
  | cons p rest ih =>
    obtain ⟨k₁, v₁⟩ := p
    have hnd₁ : k₁ ∉ keysA rest ∧ NodupKeys rest := by
      have := hnd
      simp only [NodupKeys, keysA, List.map_cons, List.nodup_cons] at this
      exact ⟨this.1, this.2⟩
    by_cases h₁ : k₁ = k
    · subst h₁
      have hnone : lookupA rest k₁ = none :=
        lookupA_none_of_not_mem_keysA rest k₁ hnd₁.1
      simp [eraseA, eraseA_of_lookupA_none rest k₁ hnone]
    · simp only [lookupA, if_neg h₁] at h
      have := ih hnd₁.2 h
      simp only [eraseA, if_neg h₁, List.length_cons]
      omega

theorem nodupKeys_eraseA {α β : Type} [DecidableEq α]
    (m : List (α × β)) (k : α) (hnd : NodupKeys m) : NodupKeys (eraseA m k) := by
  induction m with
  | nil => exact hnd
  | cons p rest ih =>
    obtain ⟨k₁, v₁⟩ := p
    have hnd₁ : k₁ ∉ keysA rest ∧ NodupKeys rest := by
      have := hnd
      simp only [NodupKeys, keysA, List.map_cons, List.nodup_cons] at this
      exact ⟨this.1, this.2⟩
    by_cases h₁ : k₁ = k
    · simpa [eraseA, h₁] using ih hnd₁.2
    · have htail : NodupKeys (eraseA rest k) := ih hnd₁.2
      simp only [eraseA, if_neg h₁]
      show (k₁ :: keysA (eraseA rest k)).Nodup
      exact List.nodup_cons.mpr
        ⟨fun hm => hnd₁.1 (mem_keysA_of_mem_keysA_eraseA rest k k₁ hm), htail⟩

theorem not_mem_keysA_eraseA {α β : Type} [DecidableEq α]
    (m : List (α × β)) (k : α) : k ∉ keysA (eraseA m k) := by
  induction m with
  | nil => simp [eraseA, keysA]
  | cons p rest ih =>
    obtain ⟨k₁, v₁⟩ := p
    by_cases h₁ : k₁ = k
    · simpa [eraseA, h₁] using ih
    · simp only [eraseA, if_neg h₁, keysA, List.map_cons, List.mem_cons, not_or]
      exact ⟨fun hk => h₁ hk.symm, ih⟩

theorem nodupKeys_insertA {α β : Type} [DecidableEq α]
    (m : List (α × β)) (k : α) (v : β) (hnd : NodupKeys m) :
    NodupKeys (insertA m k v) := by
  show (k :: keysA (eraseA m k)).Nodup
  exact List.nodup_cons.mpr ⟨not_mem_keysA_eraseA m k, nodupKeys_eraseA m k hnd⟩

theorem length_insertA {α β : Type} [DecidableEq α]
    (m : List (α × β)) (k : α) (v : β) (h : lookupA m k = none) :
    (insertA m k v).length = m.length + 1 := by
  simp [insertA, eraseA_of_lookupA_none m k h]

theorem length_insertA_of_lookupA_some {α β : Type} [DecidableEq α]
    (m : List (α × β)) (k : α) (v w : β) (hnd : NodupKeys m)
    (h : lookupA m k = some w) : (insertA m k v).length = m.length := by
  have hl := length_eraseA_of_lookupA_some m k w hnd h
  simp only [insertA, List.length_cons]
  omega

-- ===== Claim theorems =====

/-- C5: the partner-channel box deposit charged at deploy-complete for a name of
length n is `2500 + 400 * ((2+32) + (2+32+32+(2+n)))` — 44900 for length 4 — and
`partnerChannelClose` refunds exactly that amount, recomputed from the stored
name, to the closer. -/
theorem C5_partner_channel_box_mbr (ctx : Ctx) (s : MasterState)
    (partnerChannel : Addr) (d : PartnerChannelData)
    (hpc : lookupA s.partnerChannels partnerChannel = some d)
    (hown : d.owner = ctx.sender) :
    (∀ name : String, getPartnerChannelBoxMbr name =
      2500 + 400 * ((2 + 32) + (2 + 32 + 32 + (2 + name.length)))) ∧
    (∀ name : String, name.length = 4 → getPartnerChannelBoxMbr name = 44900) ∧
    partnerChannelClose ctx s partnerChannel = .ok { state := { s with partnerChannels := eraseA s.partnerChannels partnerChannel, partnerChannelsActiveCount := s.partnerChannelsActiveCount - 1 }, transfers := [.paymentClose partnerChannel partnerChannel ctx.sender 0, .payment ctx.appAddr ctx.sender (getPartnerChannelBoxMbr d.partnerChannelName)], events := [.PartnerChannelClosed partnerChannel d.partnerChannelName] } := by
  refine ⟨fun name => rfl, fun name hn => by simp [getPartnerChannelBoxMbr, hn], ?_⟩
  simp only [partnerChannelClose, hpc]
  rw [if_pos hown]

/-- C5 witness: closing the concrete channel "Acme" (name length 4) refunds
exactly 44900 to the closer. -/
theorem C5_witness :
    getPartnerChannelBoxMbr "Acme" = 44900 ∧
    partnerChannelClose (mkCtx 1 0) s0 10 = .ok { state := { s0 with partnerChannels := eraseA s0.partnerChannels 10, partnerChannelsActiveCount := s0.partnerChannelsActiveCount - 1 }, transfers := [.paymentClose 10 10 (mkCtx 1 0).sender 0, .payment (mkCtx 1 0).appAddr (mkCtx 1 0).sender (getPartnerChannelBoxMbr pc0.partnerChannelName)], events := [.PartnerChannelClosed 10 pc0.partnerChannelName] } := by
  obtain ⟨h1, h2, h3⟩ := C5_partner_channel_box_mbr (mkCtx 1 0) s0 10 pc0 rfl rfl
  exact ⟨h2 "Acme" (by decide), h3⟩

/-- C6: `settle` succeeds only for the settler while unpaused with the exact
next settlement nonce and a registered settlement address for the asset; a
wrong nonce fails NONCE_INVALID, a missing settlement address fails
SETTLEMENT_ADDRESS_NOT_FOUND, and success transfers the amount from the
application account to the registered address and sets `settlementNonce` to
the supplied nonce. -/
theorem C6_settle_spec (ctx : Ctx) (s : MasterState) (asset : AssetID)
    (amount nonce : Nat) :
    (∀ r, settle ctx s asset amount nonce = .ok r →
      ctx.sender = s.settlerRoleAddress ∧ s.paused = false ∧
      nonce = s.settlementNonce + 1 ∧
      ∃ dest, lookupA s.settlementAddress asset = some dest ∧
        r.state.settlementNonce = nonce ∧
        r.state.settlementAddress = s.settlementAddress ∧
        r.transfers = [.assetTransfer ctx.appAddr dest asset amount ""] ∧
        r.events = [.Settlement dest asset amount nonce]) ∧
    (∀ dest, s.paused = false → ctx.sender = s.settlerRoleAddress →
      nonce = s.settlementNonce + 1 →
      lookupA s.settlementAddress asset = some dest →
      settle ctx s asset amount nonce = .ok { state := { s with settlementNonce := nonce }, transfers := [.assetTransfer ctx.appAddr dest asset amount ""], events := [.Settlement dest asset amount nonce] }) ∧
    (s.paused = false → ctx.sender = s.settlerRoleAddress →
      nonce ≠ s.settlementNonce + 1 →
      settle ctx s asset amount nonce = .error .NONCE_INVALID) ∧
    (s.paused = false → ctx.sender = s.settlerRoleAddress →
      nonce = s.settlementNonce + 1 →
      lookupA s.settlementAddress asset = none →
      settle ctx s asset amount nonce = .error .SETTLEMENT_ADDRESS_NOT_FOUND) := by
  refine ⟨?_, ?_, ?_, ?_⟩
  · intro r h
    by_cases hp : s.paused
    · simp [settle, hp] at h
    · by_cases hs : ctx.sender = s.settlerRoleAddress
      · by_cases hn : s.settlementNonce + 1 = nonce
        · cases hl : lookupA s.settlementAddress asset with
          | none => simp [settle, hp, hs, hn, hl] at h
          | some dest =>
            simp only [settle] at h
            rw [if_neg hp, if_pos hs, if_pos hn] at h
            simp only [hl, Except.ok.injEq] at h
            subst h
            exact ⟨hs, by simpa using hp, hn.symm, dest, rfl, hn, rfl, rfl, rfl⟩
        · simp [settle, hp, hs, hn] at h
      · simp [settle, hp, hs] at h
  · intro dest hp hs hn hl
    simp only [settle, hp, Bool.false_eq_true, if_false]
    rw [if_pos hs, if_pos hn.symm]
    simp only [hl]
    rw [hn]
  · intro hp hs hn
    have hn₂ : ¬(s.settlementNonce + 1 = nonce) := fun hh => hn hh.symm
    simp [settle, hp, hs, hn₂]
  · intro hp hs hn hl
    simp [settle, hp, hs, hn, hl]

/-- C6 witness: at the concrete state the settler settles asset 7 with nonce 1
to the registered address 99; nonce 9 is rejected with NONCE_INVALID. -/
theorem C6_witness :
    settle (mkCtx 2 0) s0 7 5 1 = .ok { state := { s0 with settlementNonce := 1 }, transfers := [.assetTransfer (mkCtx 2 0).appAddr 99 7 5 ""], events := [.Settlement 99 7 5 1] } ∧
    settle (mkCtx 2 0) s0 7 5 9 = .error .NONCE_INVALID :=
  ⟨(C6_settle_spec (mkCtx 2 0) s0 7 5 1).2.1 99 rfl rfl rfl rfl,
   (C6_settle_spec (mkCtx 2 0) s0 7 5 9).2.2.1 rfl rfl (by decide)⟩

/-- C1: for an existing card fund, `cardFundDebit` / `cardFundRefund` succeed
only with nonce = paymentNonce + 1 (failing NONCE_INVALID otherwise) and set
`paymentNonce` to exactly the supplied nonce; every successful withdrawal
(permissionless execute or approved) sets `withdrawalNonce` to
withdrawalNonce + 1.  A failing call returns an error, so the transaction
aborts and both nonces persist unchanged. -/
theorem C1_nonce_discipline (ctx : Ctx) (s : MasterState) (cardFund : Addr)
    (d : CardFundData) (hcf : lookupA s.cardFunds cardFund = some d) :
    (∀ asset amount nonce ref, ∀ r : OpResult, cardFundDebit ctx s cardFund asset amount nonce ref = .ok r →
      nonce = d.paymentNonce + 1 ∧ lookupA r.state.cardFunds cardFund = some { d with paymentNonce := nonce }) ∧
    (∀ asset amount nonce ref, s.paused = false → ctx.sender = s.settlerRoleAddress → nonce = d.paymentNonce + 1 →
      cardFundDebit ctx s cardFund asset amount nonce ref = .ok { state := { s with cardFunds := insertA s.cardFunds cardFund { d with paymentNonce := nonce } }, transfers := [.assetTransfer cardFund ctx.appAddr asset amount ref], events := [.Debit cardFund asset amount nonce ref] }) ∧
    (∀ asset amount nonce ref, s.paused = false → ctx.sender = s.settlerRoleAddress → nonce ≠ d.paymentNonce + 1 →
      cardFundDebit ctx s cardFund asset amount nonce ref = .error .NONCE_INVALID) ∧
    (∀ asset amount nonce ref, ∀ r : OpResult, cardFundRefund ctx s cardFund asset amount nonce ref = .ok r →
      nonce = d.paymentNonce + 1 ∧ lookupA r.state.cardFunds cardFund = some { d with paymentNonce := nonce }) ∧
    (∀ asset amount nonce ref, s.paused = false → ctx.sender = s.settlerRoleAddress → nonce = d.paymentNonce + 1 →
      cardFundRefund ctx s cardFund asset amount nonce ref = .ok { state := { s with cardFunds := insertA s.cardFunds cardFund { d with paymentNonce := nonce } }, transfers := [.assetTransfer ctx.appAddr cardFund asset amount ref], events := [.Refund cardFund asset amount nonce ref] }) ∧
    (∀ asset amount nonce ref, s.paused = false → ctx.sender = s.settlerRoleAddress → nonce ≠ d.paymentNonce + 1 →
      cardFundRefund ctx s cardFund asset amount nonce ref = .error .NONCE_INVALID) ∧
    (∀ amount, ∀ r : OpResult, cardFundExecutePermissionlessWithdrawal ctx s cardFund amount = .ok r →
      lookupA r.state.cardFunds cardFund = some { d with withdrawalNonce := d.withdrawalNonce + 1 }) ∧
    (∀ asset amount expiresAt nonce signature, ∀ r : OpResult,
      cardFundExecuteApprovedWithdrawal ctx s cardFund asset amount expiresAt nonce signature = .ok r →
      nonce = d.withdrawalNonce + 1 ∧ lookupA r.state.cardFunds cardFund = some { d with withdrawalNonce := nonce }) := by
  refine ⟨?_, ?_, ?_, ?_, ?_, ?_, ?_, ?_⟩
  · intro asset amount nonce ref r h
    by_cases hp : s.paused
    · simp [cardFundDebit, hp] at h
    · by_cases hs : ctx.sender = s.settlerRoleAddress
      · by_cases hn : d.paymentNonce + 1 = nonce
        · simp only [cardFundDebit] at h
          rw [if_neg hp, if_pos hs] at h
          simp only [hcf] at h
          rw [if_pos hn] at h
          simp only [Except.ok.injEq] at h
          subst h
          refine ⟨hn.symm, ?_⟩
          rw [← hn]
          exact lookupA_insertA_self _ _ _
        · simp [cardFundDebit, hp, hs, hcf, hn] at h
      · simp [cardFundDebit, hp, hs] at h
  · intro asset amount nonce ref hp hs hn
    simp only [cardFundDebit, hp, Bool.false_eq_true, if_false]
    rw [if_pos hs]
    simp only [hcf]
    rw [if_pos hn.symm, hn]
  · intro asset amount nonce ref hp hs hn
    have hn₂ : ¬(d.paymentNonce + 1 = nonce) := fun hh => hn hh.symm
    simp [cardFundDebit, hp, hs, hcf, hn₂]
  · intro asset amount nonce ref r h
    by_cases hp : s.paused
    · simp [cardFundRefund, hp] at h
    · by_cases hs : ctx.sender = s.settlerRoleAddress
      · by_cases hn : d.paymentNonce + 1 = nonce
        · simp only [cardFundRefund] at h
          rw [if_neg hp, if_pos hs] at h
          simp only [hcf] at h
          rw [if_pos hn] at h
          simp only [Except.ok.injEq] at h
          subst h
          refine ⟨hn.symm, ?_⟩
          rw [← hn]
          exact lookupA_insertA_self _ _ _
        · simp [cardFundRefund, hp, hs, hcf, hn] at h
      · simp [cardFundRefund, hp, hs] at h
  · intro asset amount nonce ref hp hs hn
    simp only [cardFundRefund, hp, Bool.false_eq_true, if_false]
    rw [if_pos hs]
    simp only [hcf]
    rw [if_pos hn.symm, hn]
  · intro asset amount nonce ref hp hs hn
    have hn₂ : ¬(d.paymentNonce + 1 = nonce) := fun hh => hn hh.symm
    simp [cardFundRefund, hp, hs, hcf, hn₂]
  · intro amount r h
    by_cases ho : d.owner = ctx.sender
    · cases hw : lookupA s.withdrawals (ctx.sender, cardFund) with
      | none => simp [cardFundExecutePermissionlessWithdrawal, hcf, ho, hw] at h
      | some w =>
        by_cases ha : amount ≤ w.amount
        · by_cases hn : d.withdrawalNonce + 1 = w.nonce
          · by_cases ht : w.createdAt + s.withdrawalWaitTime ≤ ctx.timestamp
            · simp only [cardFundExecutePermissionlessWithdrawal, withdrawFunds, hcf] at h
              rw [if_pos ho] at h
              simp only [hw] at h
              rw [if_pos ha, if_pos hn, if_pos ht] at h
              simp only [Except.ok.injEq] at h
              subst h
              rw [hn]
              exact lookupA_insertA_self _ _ _
            · simp [cardFundExecutePermissionlessWithdrawal, hcf, ho, hw, ha, hn, ht] at h
          · simp [cardFundExecutePermissionlessWithdrawal, hcf, ho, hw, ha, hn] at h
        · simp [cardFundExecutePermissionlessWithdrawal, hcf, ho, hw, ha] at h
    · simp [cardFundExecutePermissionlessWithdrawal, hcf, ho] at h
  · intro asset amount expiresAt nonce signature r h
    by_cases ho : d.owner = ctx.sender
    · by_cases ht : ctx.timestamp < expiresAt
      · by_cases hn : d.withdrawalNonce + 1 = nonce
        · simp only [cardFundExecuteApprovedWithdrawal, withdrawFunds, hcf] at h
          rw [if_pos ho, if_pos ht, if_pos hn] at h
          split at h
          · simp only [Except.ok.injEq] at h
            subst h
            exact ⟨hn.symm, lookupA_insertA_self _ _ _⟩
          · exact Except.noConfusion h
        · simp [cardFundExecuteApprovedWithdrawal, hcf, ho, ht, hn] at h
      · simp [cardFundExecuteApprovedWithdrawal, hcf, ho, ht] at h
    · simp [cardFundExecuteApprovedWithdrawal, hcf, ho] at h

/-- C1 witness: the settler debits the concrete fund with nonce 1 (paymentNonce
becomes 1); repeating with nonce 2-off (still expecting 1) fails NONCE_INVALID. -/
theorem C1_witness :
    cardFundDebit (mkCtx 2 0) s0 5 7 50 1 "t" = .ok { state := { s0 with cardFunds := insertA s0.cardFunds 5 { cf0 with paymentNonce := 1 } }, transfers := [.assetTransfer 5 (mkCtx 2 0).appAddr 7 50 "t"], events := [.Debit 5 7 50 1 "t"] } ∧
    cardFundDebit (mkCtx 2 0) s0 5 7 50 2 "t" = .error .NONCE_INVALID := by
  obtain ⟨h1, h2, h3, h4, h5, h6, h7, h8⟩ := C1_nonce_discipline (mkCtx 2 0) s0 5 cf0 rfl
  exact ⟨h2 7 50 1 "t" rfl rfl rfl, h3 7 50 2 "t" rfl rfl (by decide)⟩

/-- C7: `cardFundInitPermissionlessWithdrawal`, called by the fund's owner with
amount at most the fund's on-chain balance of the asset (else
INSUFFICIENT_BALANCE), stores a request at key (owner, cardFund) with
nonce = withdrawalNonce + 1 and createdAt = now; the success equation carries no
precondition on any existing entry at that key, so a new request silently
overwrites a previous one, and the keyed store holds the new request afterwards. -/
theorem C7_init_withdrawal (ctx : Ctx) (s : MasterState) (cardFund : Addr)
    (d : CardFundData) (asset : AssetID) (amount : Nat)
    (hcf : lookupA s.cardFunds cardFund = some d)
    (hown : d.owner = ctx.sender) :
    (amount ≤ ctx.assetBalance cardFund asset →
      cardFundInitPermissionlessWithdrawal ctx s cardFund asset amount = .ok { state := { s with withdrawals := insertA s.withdrawals (ctx.sender, cardFund) { cardFund := cardFund, asset := asset, amount := amount, createdAt := ctx.timestamp, nonce := d.withdrawalNonce + 1 } }, transfers := [], events := [.WithdrawalRequest cardFund ctx.sender asset amount ctx.timestamp (d.withdrawalNonce + 1)] }) ∧
    (¬ amount ≤ ctx.assetBalance cardFund asset →
      cardFundInitPermissionlessWithdrawal ctx s cardFund asset amount = .error .INSUFFICIENT_BALANCE) ∧
    (∀ r : OpResult, cardFundInitPermissionlessWithdrawal ctx s cardFund asset amount = .ok r →
      lookupA r.state.withdrawals (ctx.sender, cardFund) = some { cardFund := cardFund, asset := asset, amount := amount, createdAt := ctx.timestamp, nonce := d.withdrawalNonce + 1 }) := by
  refine ⟨?_, ?_, ?_⟩
  · intro hb
    simp only [cardFundInitPermissionlessWithdrawal, hcf]
    rw [if_pos hown, if_pos hb]
  · intro hb
    simp only [cardFundInitPermissionlessWithdrawal, hcf]
    rw [if_pos hown, if_neg hb]
  · intro r h
    by_cases hb : amount ≤ ctx.assetBalance cardFund asset
    · simp only [cardFundInitPermissionlessWithdrawal, hcf] at h
      rw [if_pos hown, if_pos hb] at h
      simp only [Except.ok.injEq] at h
      subst h
      exact lookupA_insertA_self _ _ _
    · simp [cardFundInitPermissionlessWithdrawal, hcf, hown, hb] at h

/-- C7 witness: owner 1 re-requests on fund 5 while `wr0` is still stored: the
call succeeds and overwrites, and an amount above the balance is rejected. -/
theorem C7_witness :
    cardFundInitPermissionlessWithdrawal (mkCtx 1 2000) s1 5 7 60 = .ok { state := { s1 with withdrawals := insertA s1.withdrawals (1, 5) { cardFund := 5, asset := 7, amount := 60, createdAt := 2000, nonce := 1 } }, transfers := [], events := [.WithdrawalRequest 5 1 7 60 2000 1] } ∧
    cardFundInitPermissionlessWithdrawal (mkCtx 1 2000) s1 5 7 2000 = .error .INSUFFICIENT_BALANCE := by
  obtain ⟨h1, h2, h3⟩ := C7_init_withdrawal (mkCtx 1 2000) s1 5 cf0 7 60 rfl rfl
  obtain ⟨g1, g2, g3⟩ := C7_init_withdrawal (mkCtx 1 2000) s1 5 cf0 7 2000 rfl rfl
  exact ⟨h1 (by decide), g2 (by decide)⟩

/-- C8 counterexample: in the current two-phase Master, the contract owner
(address 3, distinct from the fund's owner 1) calls `cardFundClose` on existing
fund 5 and is rejected with SENDER_NOT_ALLOWED, contradicting the claim that
the contract owner may close a card fund. -/
theorem C8_counterexample :
    (mkCtx 3 0).sender = s0.ownerAddr ∧
    lookupA s0.cardFunds 5 = some cf0 ∧
    cf0.owner ≠ (mkCtx 3 0).sender ∧
    cardFundClose (mkCtx 3 0) s0 5 = .error .SENDER_NOT_ALLOWED :=
  ⟨rfl, rfl, by decide, rfl⟩

/-- C8 (amended): `cardFundClose` on an existing card fund succeeds exactly when
the caller is the card fund's owner, and fails with SENDER_NOT_ALLOWED for every
other caller — including the contract owner when distinct from the fund owner. -/
theorem C8_close_owner_only (ctx : Ctx) (s : MasterState) (cardFund : Addr)
    (d : CardFundData) (hcf : lookupA s.cardFunds cardFund = some d) :
    (d.owner = ctx.sender →
      cardFundClose ctx s cardFund = .ok { state := { s with cardFunds := eraseA s.cardFunds cardFund, cardFundsActiveCount := s.cardFundsActiveCount - 1, partnerCardFundOwner := eraseA s.partnerCardFundOwner (partnerCardFundOwnerKey d.partnerChannel d.owner) }, transfers := [.paymentClose cardFund cardFund ctx.sender 0, .payment ctx.appAddr ctx.sender (getCardFundBoxMbr d.reference)], events := [.CardFundClosed d.owner cardFund d.partnerChannel d.reference] }) ∧
    (d.owner ≠ ctx.sender →
      cardFundClose ctx s cardFund = .error .SENDER_NOT_ALLOWED) := by
  constructor
  · intro hown
    simp only [cardFundClose, hcf]
    rw [if_pos hown]
  · intro hown
    simp only [cardFundClose, hcf]
    rw [if_neg hown]

/-- C8 witness: the fund owner (1) closes fund 5; the contract owner (3) is
rejected. -/
theorem C8_witness :
    cardFundClose (mkCtx 1 0) s0 5 = .ok { state := { s0 with cardFunds := eraseA s0.cardFunds 5, cardFundsActiveCount := s0.cardFundsActiveCount - 1, partnerCardFundOwner := eraseA s0.partnerCardFundOwner (partnerCardFundOwnerKey cf0.partnerChannel cf0.owner) }, transfers := [.paymentClose 5 5 (mkCtx 1 0).sender 0, .payment (mkCtx 1 0).appAddr (mkCtx 1 0).sender (getCardFundBoxMbr cf0.reference)], events := [.CardFundClosed cf0.owner 5 cf0.partnerChannel cf0.reference] } ∧
    cardFundClose (mkCtx 3 0) s0 5 = .error .SENDER_NOT_ALLOWED := by
  obtain ⟨h1, h2⟩ := C8_close_owner_only (mkCtx 1 0) s0 5 cf0 rfl
  obtain ⟨g1, g2⟩ := C8_close_owner_only (mkCtx 3 0) s0 5 cf0 rfl
  exact ⟨h1 rfl, g2 (by decide)⟩

/-- C3: executing a stored permissionless request strictly before
createdAt + withdrawalWaitTime fails WITHDRAWAL_TIME_INVALID; at or after the
release time a success is possible exactly once — the request is deleted, so a
second execution by the same owner on the same fund fails
WITHDRAWAL_REQUEST_NOT_FOUND. -/
theorem C3_permissionless_timing (ctx ctx₂ : Ctx) (s : MasterState)
    (cardFund : Addr) (d : CardFundData) (w : PermissionlessWithdrawalRequest)
    (amount : Nat)
    (hcf : lookupA s.cardFunds cardFund = some d)
    (hown : d.owner = ctx.sender)
    (hw : lookupA s.withdrawals (ctx.sender, cardFund) = some w) :
    (amount ≤ w.amount → d.withdrawalNonce + 1 = w.nonce →
      ctx.timestamp < w.createdAt + s.withdrawalWaitTime →
      cardFundExecutePermissionlessWithdrawal ctx s cardFund amount = .error .WITHDRAWAL_TIME_INVALID) ∧
    (∀ r : OpResult, cardFundExecutePermissionlessWithdrawal ctx s cardFund amount = .ok r →
      w.createdAt + s.withdrawalWaitTime ≤ ctx.timestamp ∧
      lookupA r.state.withdrawals (ctx.sender, cardFund) = none ∧
      (ctx₂.sender = ctx.sender →
        cardFundExecutePermissionlessWithdrawal ctx₂ r.state cardFund amount = .error .WITHDRAWAL_REQUEST_NOT_FOUND)) := by
  constructor
  · intro ha hn ht
    have ht₂ : ¬(w.createdAt + s.withdrawalWaitTime ≤ ctx.timestamp) := by omega
    simp only [cardFundExecutePermissionlessWithdrawal, hcf]
    rw [if_pos hown]
    simp only [hw]
    rw [if_pos ha, if_pos hn, if_neg ht₂]
  · intro r h
    by_cases ha : amount ≤ w.amount
    · by_cases hn : d.withdrawalNonce + 1 = w.nonce
      · by_cases ht : w.createdAt + s.withdrawalWaitTime ≤ ctx.timestamp
        · simp only [cardFundExecutePermissionlessWithdrawal, withdrawFunds, hcf] at h
          rw [if_pos hown] at h
          simp only [hw] at h
          rw [if_pos ha, if_pos hn, if_pos ht] at h
          simp only [Except.ok.injEq] at h
          subst h
          refine ⟨ht, lookupA_eraseA_self _ _, ?_⟩
          intro hcs
          simp [cardFundExecutePermissionlessWithdrawal, hcs, hown,
            lookupA_insertA_self, lookupA_eraseA_self]
        · simp [cardFundExecutePermissionlessWithdrawal, hcf, hown, hw, ha, hn, ht] at h
      · simp [cardFundExecutePermissionlessWithdrawal, hcf, hown, hw, ha, hn] at h
    · simp [cardFundExecutePermissionlessWithdrawal, hcf, hown, hw, ha] at h

/-- C3 witness: request `wr0` (t = 1000, wait 86400): execution at t = 87399
fails WITHDRAWAL_TIME_INVALID; at t = 87400 it succeeds, deletes the request,
and re-execution fails WITHDRAWAL_REQUEST_NOT_FOUND. -/
theorem C3_witness :
    cardFundExecutePermissionlessWithdrawal (mkCtx 1 87399) s1 5 50 = .error .WITHDRAWAL_TIME_INVALID ∧
    cardFundExecutePermissionlessWithdrawal (mkCtx 1 87400) s1 5 50 = .ok r3 ∧
    lookupA r3.state.withdrawals (1, 5) = none ∧
    cardFundExecutePermissionlessWithdrawal (mkCtx 1 87400) r3.state 5 50 = .error .WITHDRAWAL_REQUEST_NOT_FOUND := by
  obtain ⟨hA, _⟩ := C3_permissionless_timing (mkCtx 1 87399) (mkCtx 1 87399) s1 5 cf0 wr0 50 rfl rfl rfl
  obtain ⟨_, gB⟩ := C3_permissionless_timing (mkCtx 1 87400) (mkCtx 1 87400) s1 5 cf0 wr0 50 rfl rfl rfl
  have hok : cardFundExecutePermissionlessWithdrawal (mkCtx 1 87400) s1 5 50 = .ok r3 := rfl
  obtain ⟨g1, g2, g3⟩ := gB r3 hok
  exact ⟨hA (by decide) rfl (by decide), hok, g2, g3 rfl⟩

/-- C9: a withdrawal executed over amount 0 — permissionless or approved —
issues no asset transfer, still logs a Withdrawal event, and still advances the
fund's withdrawalNonce to the supplied (+1) nonce. -/
theorem C9_zero_amount_withdrawal (ctx : Ctx) (s : MasterState) (cardFund : Addr)
    (d : CardFundData) (hcf : lookupA s.cardFunds cardFund = some d) :
    (∀ w : PermissionlessWithdrawalRequest,
      lookupA s.withdrawals (ctx.sender, cardFund) = some w →
      d.owner = ctx.sender →
      d.withdrawalNonce + 1 = w.nonce →
      w.createdAt + s.withdrawalWaitTime ≤ ctx.timestamp →
      ∀ r : OpResult, cardFundExecutePermissionlessWithdrawal ctx s cardFund 0 = .ok r →
        r.transfers = [] ∧
        r.events = [.Withdrawal cardFund ctx.sender w.asset 0 w.createdAt 0 w.nonce WithdrawalTypePermissionLess] ∧
        lookupA r.state.cardFunds cardFund = some { d with withdrawalNonce := w.nonce }) ∧
    (∀ asset expiresAt nonce signature, ∀ r : OpResult,
      cardFundExecuteApprovedWithdrawal ctx s cardFund asset 0 expiresAt nonce signature = .ok r →
        r.transfers = [] ∧
        r.events = [.Withdrawal cardFund ctx.sender asset 0 0 expiresAt nonce WithdrawalTypeApproved] ∧
        lookupA r.state.cardFunds cardFund = some { d with withdrawalNonce := nonce }) := by
  constructor
  · intro w hw hown hn ht r h
    simp only [cardFundExecutePermissionlessWithdrawal, withdrawFunds, hcf] at h
    rw [if_pos hown] at h
    simp only [hw] at h
    rw [if_pos (Nat.zero_le w.amount), if_pos hn, if_pos ht] at h
    simp only [Except.ok.injEq] at h
    subst h
    exact ⟨rfl, rfl, lookupA_insertA_self _ _ _⟩
  · intro asset expiresAt nonce signature r h
    by_cases hown : d.owner = ctx.sender
    · by_cases ht : ctx.timestamp < expiresAt
      · by_cases hn : d.withdrawalNonce + 1 = nonce
        · simp only [cardFundExecuteApprovedWithdrawal, withdrawFunds, hcf] at h
          rw [if_pos hown, if_pos ht, if_pos hn] at h
          split at h
          · simp only [Except.ok.injEq] at h
            subst h
            exact ⟨rfl, rfl, lookupA_insertA_self _ _ _⟩
          · exact Except.noConfusion h
        · simp [cardFundExecuteApprovedWithdrawal, hcf, hown, ht, hn] at h
      · simp [cardFundExecuteApprovedWithdrawal, hcf, hown, ht] at h
    · simp [cardFundExecuteApprovedWithdrawal, hcf, hown] at h

/-- C9 witness: executing the stored request over amount 0 at t = 87400 moves no
assets, logs the Withdrawal event, and advances withdrawalNonce to 1. -/
theorem C9_witness :
    cardFundExecutePermissionlessWithdrawal (mkCtx 1 87400) s1 5 0 = .ok r9 ∧
    r9.transfers = [] ∧
    r9.events = [.Withdrawal 5 1 7 0 1000 0 1 WithdrawalTypePermissionLess] ∧
    lookupA r9.state.cardFunds 5 = some { cf0 with withdrawalNonce := 1 } := by
  obtain ⟨h1, _⟩ := C9_zero_amount_withdrawal (mkCtx 1 87400) s1 5 cf0 rfl
  obtain ⟨g1, g2, g3⟩ := h1 wr0 rfl rfl rfl (by decide) r9 rfl
  exact ⟨rfl, g1, g2, g3⟩

/-- C2: at most one secondary-index entry per (partnerChannel, owner) pair:
`cardFundDeployInit` rejects an already-indexed pair with
CARD_FUND_ALREADY_EXISTS; `cardFundDeployComplete` re-checks the same index and
rejects with CARD_FUND_ALREADY_EXISTS when a competing fund was completed in
between; and a successful complete only ever writes the entry when the pair was
unindexed, leaving the index mapping the pair to the new fund. -/
theorem C2_unique_card_fund_index (ctx : Ctx) (s : MasterState)
    (partnerChannel : Addr) (asset : AssetID) (reference : String) (mbr : PayTxn)
    (cardFundAddr existing : Addr) (setup : CardFundSetup) :
    ((lookupA s.partnerChannels partnerChannel).isSome →
      reference.length ≤ MaxCardFundReferenceLength →
      lookupA s.partnerCardFundOwner (partnerCardFundOwnerKey partnerChannel ctx.sender) = some existing →
      cardFundDeployInit ctx s mbr partnerChannel asset reference = .error .CARD_FUND_ALREADY_EXISTS) ∧
    (lookupA s.cardFundsSetup (ctx.sender, cardFundAddr) = some setup →
      lookupA s.partnerCardFundOwner (partnerCardFundOwnerKey setup.partnerChannel ctx.sender) = some existing →
      cardFundDeployComplete ctx s mbr cardFundAddr = .error .CARD_FUND_ALREADY_EXISTS) ∧
    (∀ r : OpResult, lookupA s.cardFundsSetup (ctx.sender, cardFundAddr) = some setup →
      cardFundDeployComplete ctx s mbr cardFundAddr = .ok r →
      lookupA s.partnerCardFundOwner (partnerCardFundOwnerKey setup.partnerChannel ctx.sender) = none ∧
      lookupA r.state.partnerCardFundOwner (partnerCardFundOwnerKey setup.partnerChannel ctx.sender) = some cardFundAddr) := by
  refine ⟨?_, ?_, ?_⟩
  · intro hpc href hix
    simp only [cardFundDeployInit]
    rw [if_pos hpc, if_pos href]
    simp [hix]
  · intro hsetup hix
    simp only [cardFundDeployComplete, hsetup]
    simp [hix]
  · intro r hsetup h
    simp only [cardFundDeployComplete, hsetup] at h
    cases hix : lookupA s.partnerCardFundOwner (partnerCardFundOwnerKey setup.partnerChannel ctx.sender) with
    | some e => simp [hix] at h
    | none =>
      simp only [hix, Option.isSome_none, Bool.false_eq_true, if_false] at h
      by_cases hpay : mbr.receiver = ctx.appAddr ∧ mbr.amount = getCardFundBoxMbr setup.reference
      · by_cases hauth : ctx.authAddr cardFundAddr = ctx.appAddr
        · rw [if_pos hpay, if_pos hauth] at h
          simp only [Except.ok.injEq] at h
          subst h
          exact ⟨rfl, lookupA_insertA_self _ _ _⟩
        · rw [if_pos hpay, if_neg hauth] at h
          exact Except.noConfusion h
      · rw [if_neg hpay] at h
        exact Except.noConfusion h

/-- C2 witness: with the pair (channel 10, owner 1) already indexed in `s0`,
both the init and the complete paths reject with CARD_FUND_ALREADY_EXISTS. -/
theorem C2_witness :
    cardFundDeployInit (mkCtx 1 0) s0 { receiver := 100, amount := 200000 } 10 7 "x" = .error .CARD_FUND_ALREADY_EXISTS ∧
    cardFundDeployComplete (mkCtx 1 0) { s0 with cardFundsSetup := [((1, 50), { partnerChannel := 10, reference := "x" })] } { receiver := 100, amount := getCardFundBoxMbr "x" } 50 = .error .CARD_FUND_ALREADY_EXISTS := by
  obtain ⟨h1, _, _⟩ := C2_unique_card_fund_index (mkCtx 1 0) s0 10 7 "x"
    { receiver := 100, amount := 200000 } 50 5 { partnerChannel := 10, reference := "x" }
  obtain ⟨_, g2, _⟩ := C2_unique_card_fund_index (mkCtx 1 0)
    { s0 with cardFundsSetup := [((1, 50), { partnerChannel := 10, reference := "x" })] }
    10 7 "x" { receiver := 100, amount := getCardFundBoxMbr "x" } 50 5 { partnerChannel := 10, reference := "x" }
  exact ⟨h1 (by decide) (by decide) rfl, g2 rfl rfl⟩

/-- C4: the approved withdrawal, called by the fund's owner, fails
WITHDRAWAL_TIME_INVALID unless now < expiresAt, fails NONCE_INVALID unless
nonce = withdrawalNonce + 1, fails SIGNATURE_INVALID unless the 64-byte
signature verifies under the settler key against the digest of the tuple
(cardFund, recipient = caller, asset, amount, expiresAt, nonce, genesisHash);
when all pass it issues the withdrawal immediately — no condition involves the
cooling-off wait time — and a signature minted for one amount fails for every
altered amount. -/
theorem C4_approved_withdrawal (ctx : Ctx) (s : MasterState) (cardFund : Addr)
    (d : CardFundData) (asset : AssetID) (amount expiresAt nonce : Nat)
    (signature : Bytes64)
    (hcf : lookupA s.cardFunds cardFund = some d)
    (hown : d.owner = ctx.sender) :
    (¬ ctx.timestamp < expiresAt →
      cardFundExecuteApprovedWithdrawal ctx s cardFund asset amount expiresAt nonce signature = .error .WITHDRAWAL_TIME_INVALID) ∧
    (ctx.timestamp < expiresAt → nonce ≠ d.withdrawalNonce + 1 →
      cardFundExecuteApprovedWithdrawal ctx s cardFund asset amount expiresAt nonce signature = .error .NONCE_INVALID) ∧
    (ctx.timestamp < expiresAt → nonce = d.withdrawalNonce + 1 →
      ed25519VerifyBare (sha256AWR { cardFund := cardFund, recipient := ctx.sender, asset := asset, amount := amount, expiresAt := expiresAt, nonce := nonce, genesisHash := ctx.genesisHash }) signature s.settlerRoleAddress = false →
      cardFundExecuteApprovedWithdrawal ctx s cardFund asset amount expiresAt nonce signature = .error .SIGNATURE_INVALID) ∧
    (ctx.timestamp < expiresAt → nonce = d.withdrawalNonce + 1 →
      ed25519VerifyBare (sha256AWR { cardFund := cardFund, recipient := ctx.sender, asset := asset, amount := amount, expiresAt := expiresAt, nonce := nonce, genesisHash := ctx.genesisHash }) signature s.settlerRoleAddress = true →
      cardFundExecuteApprovedWithdrawal ctx s cardFund asset amount expiresAt nonce signature = .ok { state := { s with cardFunds := insertA s.cardFunds cardFund { d with withdrawalNonce := nonce } }, transfers := if amount > 0 then [.assetTransfer cardFund ctx.sender asset amount ""] else [], events := [.Withdrawal cardFund ctx.sender asset amount 0 expiresAt nonce WithdrawalTypeApproved] }) ∧
    (∀ amount₂, amount₂ ≠ amount →
      signature = { signedDigest := sha256AWR { cardFund := cardFund, recipient := ctx.sender, asset := asset, amount := amount, expiresAt := expiresAt, nonce := nonce, genesisHash := ctx.genesisHash }, signedBy := s.settlerRoleAddress } →
      ctx.timestamp < expiresAt → nonce = d.withdrawalNonce + 1 →
      cardFundExecuteApprovedWithdrawal ctx s cardFund asset amount₂ expiresAt nonce signature = .error .SIGNATURE_INVALID) := by
  refine ⟨?_, ?_, ?_, ?_, ?_⟩
  · intro ht
    simp only [cardFundExecuteApprovedWithdrawal, hcf]
    rw [if_pos hown, if_neg ht]
  · intro ht hn
    have hn₂ : ¬(d.withdrawalNonce + 1 = nonce) := fun hh => hn hh.symm
    simp only [cardFundExecuteApprovedWithdrawal, hcf]
    rw [if_pos hown, if_pos ht, if_neg hn₂]
  · intro ht hn hv
    simp only [cardFundExecuteApprovedWithdrawal, hcf]
    rw [if_pos hown, if_pos ht, if_pos hn.symm]
    simp [hv]
  · intro ht hn hv
    simp only [cardFundExecuteApprovedWithdrawal, withdrawFunds, hcf]
    rw [if_pos hown, if_pos ht, if_pos hn.symm, if_pos hv]
    rfl
  · intro amount₂ hamt hsig ht hn
    have hv : ed25519VerifyBare (sha256AWR { cardFund := cardFund, recipient := ctx.sender, asset := asset, amount := amount₂, expiresAt := expiresAt, nonce := nonce, genesisHash := ctx.genesisHash }) signature s.settlerRoleAddress = false := by
      rw [hsig]
      simp only [ed25519VerifyBare, sha256AWR, decide_eq_false_iff_not, not_and]
      intro hdig
      exfalso
      have hAmt : amount = amount₂ := by
        simpa using congrArg ApprovedWithdrawalRequest.amount hdig
      exact hamt hAmt.symm
    simp only [cardFundExecuteApprovedWithdrawal, hcf]
    rw [if_pos hown, if_pos ht, if_pos hn.symm]
    simp [hv]

/-- C4 witness: the settler-signed tuple `awr0` (amount 50, expiry 5000, nonce
1) is executed successfully at t = 999 with wait time 86400 still configured (no
cooling-off); at t = 6000 it fails WITHDRAWAL_TIME_INVALID; tampering the amount
to 51 fails SIGNATURE_INVALID. -/
theorem C4_witness :
    cardFundExecuteApprovedWithdrawal (mkCtx 1 999) s0 5 7 50 5000 1 sig0 = .ok { state := { s0 with cardFunds := insertA s0.cardFunds 5 { cf0 with withdrawalNonce := 1 } }, transfers := if (50 : Nat) > 0 then [.assetTransfer 5 1 7 50 ""] else [], events := [.Withdrawal 5 1 7 50 0 5000 1 WithdrawalTypeApproved] } ∧
    cardFundExecuteApprovedWithdrawal (mkCtx 1 6000) s0 5 7 50 5000 1 sig0 = .error .WITHDRAWAL_TIME_INVALID ∧
    cardFundExecuteApprovedWithdrawal (mkCtx 1 999) s0 5 7 51 5000 1 sig0 = .error .SIGNATURE_INVALID := by
  obtain ⟨h1, h2, h3, h4, h5⟩ := C4_approved_withdrawal (mkCtx 1 999) s0 5 cf0 7 50 5000 1 sig0 rfl rfl
  obtain ⟨g1, _, _, _, _⟩ := C4_approved_withdrawal (mkCtx 1 6000) s0 5 cf0 7 50 5000 1 sig0 rfl rfl
  exact ⟨h4 (by decide) rfl (by decide), g1 (by decide), h5 51 (by decide) rfl (by decide) rfl⟩

/-- C10: after any public operation, `cardFundsActiveCount` equals the number of
entries of the `cardFunds` box map and `partnerChannelsActiveCount` equals that
of `partnerChannels`: each deploy-complete writes one record and increments the
matching counter atomically, each close deletes one record and decrements it,
and no other operation touches either counter or map — so the invariant is
preserved by every operation and hence holds after any sequence of them. -/
theorem C10_active_count_invariant (ctx : Ctx) (s : MasterState) (op : OpCall)
    (r : OpResult) (hwf : CountInv s) (hfresh : FreshOK s op)
    (h : applyOp ctx s op = .ok r) : CountInv r.state := by
  obtain ⟨hnd1, hnd2, hc1, hc2⟩ := hwf
  cases op with
  | partnerChannelDeployInit mbr name =>
    simp only [applyOp, partnerChannelDeployInit] at h
    split at h
    next =>
      split at h
      next =>
        simp only [Except.ok.injEq] at h
        subst h
        exact ⟨hnd1, hnd2, hc1, hc2⟩
      next => exact Except.noConfusion h
    next => exact Except.noConfusion h
  | partnerChannelDeployComplete mbr addr =>
    simp only [FreshOK] at hfresh
    simp only [applyOp, partnerChannelDeployComplete] at h
    split at h
    next => exact Except.noConfusion h
    next setup heq =>
      split at h
      next =>
        split at h
        next =>
          simp only [Except.ok.injEq] at h
          subst h
          refine ⟨hnd1, nodupKeys_insertA _ _ _ hnd2, hc1, ?_⟩
          show s.partnerChannelsActiveCount + 1 = (insertA s.partnerChannels addr _).length
          rw [length_insertA _ _ _ hfresh, hc2]
        next => exact Except.noConfusion h
      next => exact Except.noConfusion h
  | partnerChannelClose addr =>
    simp only [applyOp, partnerChannelClose] at h
    split at h
    next => exact Except.noConfusion h
    next d heq =>
      split at h
      next =>
        simp only [Except.ok.injEq] at h
        subst h
        refine ⟨hnd1, nodupKeys_eraseA _ _ hnd2, hc1, ?_⟩
        have hl := length_eraseA_of_lookupA_some _ _ _ hnd2 heq
        show s.partnerChannelsActiveCount - 1 = (eraseA s.partnerChannels addr).length
        omega
      next => exact Except.noConfusion h
  | cardFundDeployInit mbr pc asset ref =>
    simp only [applyOp, cardFundDeployInit] at h
    split at h
    next =>
      split at h
      next =>
        split at h
        next => exact Except.noConfusion h
        next =>
          split at h
          next =>
            split at h
            next =>
              split at h
              next =>
                simp only [Except.ok.injEq] at h
                subst h
                exact ⟨hnd1, hnd2, hc1, hc2⟩
              next => exact Except.noConfusion h
            next => exact Except.noConfusion h
          next =>
            split at h
            next =>
              simp only [Except.ok.injEq] at h
              subst h
              exact ⟨hnd1, hnd2, hc1, hc2⟩
            next => exact Except.noConfusion h
      next => exact Except.noConfusion h
    next => exact Except.noConfusion h
  | cardFundDeployComplete mbr addr =>
    simp only [FreshOK] at hfresh
    simp only [applyOp, cardFundDeployComplete] at h
    split at h
    next => exact Except.noConfusion h
    next setup heq =>
      split at h
      next => exact Except.noConfusion h
      next =>
        split at h
        next =>
          split at h
          next =>
            simp only [Except.ok.injEq] at h
            subst h
            refine ⟨nodupKeys_insertA _ _ _ hnd1, hnd2, ?_, hc2⟩
            show s.cardFundsActiveCount + 1 = (insertA s.cardFunds addr _).length
            rw [length_insertA _ _ _ hfresh, hc1]
          next => exact Except.noConfusion h
        next => exact Except.noConfusion h
  | cardFundClose addr =>
    simp only [applyOp, cardFundClose] at h
    split at h
    next => exact Except.noConfusion h
    next d heq =>
      split at h
      next =>
        simp only [Except.ok.injEq] at h
        subst h
        refine ⟨nodupKeys_eraseA _ _ hnd1, hnd2, ?_, hc2⟩
        have hl := length_eraseA_of_lookupA_some _ _ _ hnd1 heq
        show s.cardFundsActiveCount - 1 = (eraseA s.cardFunds addr).length
        omega
      next => exact Except.noConfusion h
  | assetAllowlistAdd mbr asset sa =>
    simp only [applyOp, assetAllowlistAdd] at h
    split at h
    next =>
      split at h
      next => exact Except.noConfusion h
      next =>
        split at h
        next =>
          simp only [Except.ok.injEq] at h
          subst h
          exact ⟨hnd1, hnd2, hc1, hc2⟩
        next => exact Except.noConfusion h
    next => exact Except.noConfusion h
  | assetAllowlistRemove asset =>
    simp only [applyOp, assetAllowlistRemove] at h
    split at h
    next =>
      split at h
      next =>
        simp only [Except.ok.injEq] at h
        subst h
        exact ⟨hnd1, hnd2, hc1, hc2⟩
      next => exact Except.noConfusion h
    next => exact Except.noConfusion h
  | cardFundDebit cf asset amount nonce ref =>
    simp only [applyOp, cardFundDebit] at h
    split at h
    next => exact Except.noConfusion h
    next =>
      split at h
      next =>
        split at h
        next => exact Except.noConfusion h
        next d heq =>
          split at h
          next =>
            simp only [Except.ok.injEq] at h
            subst h
            refine ⟨nodupKeys_insertA _ _ _ hnd1, hnd2, ?_, hc2⟩
            show s.cardFundsActiveCount = (insertA s.cardFunds cf _).length
            rw [length_insertA_of_lookupA_some _ _ _ _ hnd1 heq, hc1]
          next => exact Except.noConfusion h
      next => exact Except.noConfusion h
  | cardFundRefund cf asset amount nonce ref =>
    simp only [applyOp, cardFundRefund] at h
    split at h
    next => exact Except.noConfusion h
    next =>
      split at h
      next =>
        split at h
        next => exact Except.noConfusion h
        next d heq =>
          split at h
          next =>
            simp only [Except.ok.injEq] at h
            subst h
            refine ⟨nodupKeys_insertA _ _ _ hnd1, hnd2, ?_, hc2⟩
            show s.cardFundsActiveCount = (insertA s.cardFunds cf _).length
            rw [length_insertA_of_lookupA_some _ _ _ _ hnd1 heq, hc1]
          next => exact Except.noConfusion h
      next => exact Except.noConfusion h
  | setWithdrawalTimeout secs =>
    simp only [applyOp, setWithdrawalTimeout] at h
    split at h
    next =>
      simp only [Except.ok.injEq] at h
      subst h
      exact ⟨hnd1, hnd2, hc1, hc2⟩
    next => exact Except.noConfusion h
  | setSettlerRole a =>
    simp only [applyOp, setSettlerRole] at h
    split at h
    next =>
      simp only [Except.ok.injEq] at h
      subst h
      exact ⟨hnd1, hnd2, hc1, hc2⟩
    next => exact Except.noConfusion h
  | setSettlementAddress asset a =>
    simp only [applyOp, setSettlementAddress] at h
    split at h
    next =>
      simp only [Except.ok.injEq] at h
      subst h
      exact ⟨hnd1, hnd2, hc1, hc2⟩
    next => exact Except.noConfusion h
  | settle asset amount nonce =>
    simp only [applyOp, settle] at h
    split at h
    next => exact Except.noConfusion h
    next =>
      split at h
      next =>
        split at h
        next =>
          split at h
          next => exact Except.noConfusion h
          next =>
            simp only [Except.ok.injEq] at h
            subst h
            exact ⟨hnd1, hnd2, hc1, hc2⟩
        next => exact Except.noConfusion h
      next => exact Except.noConfusion h
  | cardFundEnableAsset mbr cf asset =>
    simp only [applyOp, cardFundEnableAsset] at h
    split at h
    next => exact Except.noConfusion h
    next =>
      split at h
      next =>
        split at h
        next =>
          split at h
          next =>
            simp only [Except.ok.injEq] at h
            subst h
            exact ⟨hnd1, hnd2, hc1, hc2⟩
          next => exact Except.noConfusion h
        next => exact Except.noConfusion h
      next => exact Except.noConfusion h
  | cardFundDisableAsset cf asset =>
    simp only [applyOp, cardFundDisableAsset] at h
    split at h
    next => exact Except.noConfusion h
    next =>
      split at h
      next =>
        simp only [Except.ok.injEq] at h
        subst h
        exact ⟨hnd1, hnd2, hc1, hc2⟩
      next => exact Except.noConfusion h
  | cardFundInitPermissionlessWithdrawal cf asset amount =>
    simp only [applyOp, cardFundInitPermissionlessWithdrawal] at h
    split at h
    next => exact Except.noConfusion h
    next =>
      split at h
      next =>
        split at h
        next =>
          simp only [Except.ok.injEq] at h
          subst h
          exact ⟨hnd1, hnd2, hc1, hc2⟩
        next => exact Except.noConfusion h
      next => exact Except.noConfusion h
  | cardFundWithdrawalCancel cf =>
    simp only [applyOp, cardFundWithdrawalCancel] at h
    split at h
    next => exact Except.noConfusion h
    next =>
      split at h
      next =>
        split at h
        next => exact Except.noConfusion h
        next =>
          simp only [Except.ok.injEq] at h
          subst h
          exact ⟨hnd1, hnd2, hc1, hc2⟩
      next => exact Except.noConfusion h
  | cardFundExecutePermissionlessWithdrawal cf amount =>
    simp only [applyOp, cardFundExecutePermissionlessWithdrawal, withdrawFunds] at h
    split at h
    next => exact Except.noConfusion h
    next d heq =>
      simp only [heq] at h
      split at h
      next =>
        split at h
        next => exact Except.noConfusion h
        next w hw =>
          split at h
          next =>
            split at h
            next =>
              split at h
              next =>
                simp only [Except.ok.injEq] at h
                subst h
                refine ⟨nodupKeys_insertA _ _ _ hnd1, hnd2, ?_, hc2⟩
                show s.cardFundsActiveCount = (insertA s.cardFunds cf _).length
                rw [length_insertA_of_lookupA_some _ _ _ _ hnd1 heq, hc1]
              next => exact Except.noConfusion h
            next => exact Except.noConfusion h
          next => exact Except.noConfusion h
      next => exact Except.noConfusion h
  | cardFundExecuteApprovedWithdrawal cf asset amount expiresAt nonce sig =>
    simp only [applyOp, cardFundExecuteApprovedWithdrawal, withdrawFunds] at h
    split at h
    next => exact Except.noConfusion h
    next d heq =>
      simp only [heq] at h
      split at h
      next =>
        split at h
        next =>
          split at h
          next =>
            split at h
            next =>
              simp only [Except.ok.injEq] at h
              subst h
              refine ⟨nodupKeys_insertA _ _ _ hnd1, hnd2, ?_, hc2⟩
              show s.cardFundsActiveCount = (insertA s.cardFunds cf _).length
              rw [length_insertA_of_lookupA_some _ _ _ _ hnd1 heq, hc1]
            next => exact Except.noConfusion h
          next => exact Except.noConfusion h
        next => exact Except.noConfusion h
      next => exact Except.noConfusion h
  | destroy =>
    simp only [applyOp, destroy] at h
    split at h
    next =>
      split at h
      next =>
        split at h
        next =>
          simp only [Except.ok.injEq] at h
          subst h
          exact ⟨hnd1, hnd2, hc1, hc2⟩
        next => exact Except.noConfusion h
      next => exact Except.noConfusion h
    next => exact Except.noConfusion h

/-- C10 witness: finalizing the prepared card fund 50 in the well-formed state
`s2` writes one `cardFunds` record and bumps the counter to 2, preserving the
invariant. -/
theorem C10_witness : CountInv r10.state :=
  C10_active_count_invariant (mkCtx 1 0) s2
    (.cardFundDeployComplete { receiver := 100, amount := getCardFundBoxMbr "x" } 50) r10
    ⟨by decide, by decide, rfl, rfl⟩ rfl rfl

end FundingMaster
